import Mathlib

/-!
# The paddle-and-ball game loop (`src/gameloop/src/main.c`)

A shallow embedding of the simulation state and of the three functions that
change it: `setup`, `process_input` and the physics part of `update`.

Modelling choices.

* The C `float` fields are rationals.  `setup`, `advance` and `update` take
  every sum and product exactly; they carry the statements about bounds,
  signs, clamps and flags.  `setup32`, `advance32` and `update32` round every
  operation to binary32; they carry the golden trace, whose values rounding
  decides.
* `constants.h` is not among the sources.  `WINDOW_WIDTH` and `WINDOW_HEIGHT`
  are used as `int` arguments of `SDL_CreateWindow`, so they are integer
  parameters of the definitions that mention them.
* The SDL event that `SDL_PollEvent` writes is an argument of `process_input`;
  the frame time that `update` derives from `SDL_GetTicks` (lines 119-129) is
  the argument `delta_time` of `update`.  Rendering calls change none of the
  variables modelled here and are left out.
-/

namespace GameLoop

/-- The `struct game_object` of lines 20-27. -/
@[ext]
structure game_object where
  x : ℚ
  y : ℚ
  width : ℚ
  height : ℚ
  vel_x : ℚ
  vel_y : ℚ
deriving DecidableEq

/-- The global variables of the program that the simulation reads or writes
(lines 9-13 and 27). -/
@[ext]
structure State where
  game_is_running : Bool
  game_over : Bool
  ball : game_object
  paddle : game_object
deriving DecidableEq

/-- The part of an `SDL_Event` that `process_input` reads: `event.type` and
`event.key.keysym.sym`. -/
structure SDL_Event where
  type : Nat
  sym : Int
deriving DecidableEq

/-- Value of `SDL_QUIT` in `SDL_events.h`. -/
def SDL_QUIT : Nat := 0x100
/-- Value of `SDL_KEYDOWN` in `SDL_events.h`. -/
def SDL_KEYDOWN : Nat := 0x300
/-- Value of `SDL_KEYUP` in `SDL_events.h`. -/
def SDL_KEYUP : Nat := 0x301
/-- Value of `SDLK_ESCAPE` in `SDL_keycode.h`. -/
def SDLK_ESCAPE : Int := 27
/-- Value of `SDLK_j` in `SDL_keycode.h`. -/
def SDLK_j : Int := 106
/-- Value of `SDLK_k` in `SDL_keycode.h`. -/
def SDLK_k : Int := 107

/-- The globals as `main` has them when it calls `setup`: the static
initialisers of lines 9-13, zero-initialised `ball` and `paddle`, and
`game_is_running` holding the result of `initialize_window` (line 234). -/
def globals (window_ok : Bool) : State :=
  { game_is_running := window_ok
    game_over := false
    ball := ⟨0, 0, 0, 0, 0, 0⟩
    paddle := ⟨0, 0, 0, 0, 0, 0⟩ }

/-- Lines 60-89: `process_input`, with the polled event as an argument. -/
def process_input (event : SDL_Event) (s : State) : State :=
  if event.type = SDL_QUIT then
    { s with game_is_running := false }
  else if event.type = SDL_KEYDOWN then
    let s1 := if event.sym = SDLK_ESCAPE then { s with game_is_running := false } else s
    let s2 := if event.sym = SDLK_j then
        { s1 with paddle := { s1.paddle with vel_x := s1.paddle.vel_x + -200 } } else s1
    let s3 := if event.sym = SDLK_k then
        { s2 with paddle := { s2.paddle with vel_x := s2.paddle.vel_x + 200 } } else s2
    s3
  else if event.type = SDL_KEYUP then
    let s1 := if event.sym = SDLK_j then
        { s with paddle := { s.paddle with vel_x := 0 } } else s
    let s2 := if event.sym = SDLK_k then
        { s1 with paddle := { s1.paddle with vel_x := 0 } } else s1
    s2
  else s

/-- Lines 94-108: `setup`.  `WINDOW_WIDTH / 2` is a division of C integers. -/
def setup (WINDOW_WIDTH WINDOW_HEIGHT : Int) (s : State) : State :=
  { s with
    ball := { width := 15, height := 15, x := 0, y := 0, vel_x := 300, vel_y := 200 }
    paddle :=
      { width := 100, height := 20
        x := ((Int.tdiv WINDOW_WIDTH 2 : Int) : ℚ) - (100 : ℚ) / 2
        y := ((WINDOW_HEIGHT - 40 : Int) : ℚ)
        vel_x := 0, vel_y := 0 } }

/-- Lines 131-137 of `update`: both bodies move by velocity times
`delta_time`. -/
def advance (delta_time : ℚ) (s : State) : State :=
  let ball1 := { s.ball with x := s.ball.x + s.ball.vel_x * delta_time }
  let ball2 := { ball1 with y := ball1.y + ball1.vel_y * delta_time }
  let paddle1 := { s.paddle with x := s.paddle.x + s.paddle.vel_x * delta_time }
  let paddle2 := { paddle1 with y := paddle1.y + paddle1.vel_y * delta_time }
  { s with ball := ball2, paddle := paddle2 }

/-- Lines 141-148 of `update`: the ball against the two vertical walls. -/
def ball_vertical_walls (WINDOW_WIDTH : Int) (ball : game_object) : game_object :=
  let ball1 := if ball.x ≤ 0 then { ball with x := 0, vel_x := ball.vel_x * -1 } else ball
  let ball2 := if ball1.x + ball1.width ≥ (WINDOW_WIDTH : ℚ) then
      { ball1 with x := (WINDOW_WIDTH : ℚ) - ball1.width, vel_x := ball1.vel_x * -1 }
    else ball1
  ball2

/-- Lines 150-153 of `update`: the ball against the top wall. -/
def ball_top_wall (ball : game_object) : game_object :=
  if ball.y ≤ 0 then { ball with y := 0, vel_y := ball.vel_y * -1 } else ball

/-- Lines 154-158 of `update`: the ball against the floor. -/
def ball_floor (WINDOW_HEIGHT : Int) (ball : game_object) : game_object :=
  if ball.y + ball.height ≥ (WINDOW_HEIGHT : ℚ) then
    { ball with y := (WINDOW_HEIGHT : ℚ) - ball.height, vel_y := 0, vel_x := 0 }
  else ball

/-- The condition of lines 161-163 of `update`. -/
def hits_paddle (paddle ball : game_object) : Prop :=
  ball.y + ball.height ≥ paddle.y ∧ ball.x + ball.width ≥ paddle.x ∧
    ball.x ≤ paddle.x + paddle.width

instance (paddle ball : game_object) : Decidable (hits_paddle paddle ball) := by
  unfold hits_paddle; infer_instance

/-- Lines 161-166 of `update`: the ball against the paddle.  The C literals
`-1.02` and `1.02` are the rationals -102/100 and 102/100. -/
def ball_paddle (paddle ball : game_object) : game_object :=
  if hits_paddle paddle ball then
    { ball with vel_y := ball.vel_y * (-102 / 100), vel_x := ball.vel_x * (102 / 100) }
  else ball

/-- Lines 169-176 of `update`: the paddle against the two vertical walls. -/
def paddle_walls (WINDOW_WIDTH : Int) (paddle : game_object) : game_object :=
  let paddle1 := if paddle.x ≤ 0 then { paddle with x := 0, vel_x := 500 } else paddle
  let paddle2 := if paddle1.x + paddle1.width ≥ (WINDOW_WIDTH : ℚ) then
      { paddle1 with x := (WINDOW_WIDTH : ℚ) - paddle1.width, vel_x := -500 }
    else paddle1
  paddle2

/-- Lines 131-184 of `update`, the physics part, as a function of the state
and of the frame's `delta_time`. -/
def update (WINDOW_WIDTH WINDOW_HEIGHT : Int) (delta_time : ℚ) (s : State) : State :=
  let s1 := advance delta_time s
  let ball1 := ball_vertical_walls WINDOW_WIDTH s1.ball
  let ball2 := ball_top_wall ball1
  let ball3 := ball_floor WINDOW_HEIGHT ball2
  let ball4 := ball_paddle s1.paddle ball3
  let paddle1 := paddle_walls WINDOW_WIDTH s1.paddle
  let game_over1 :=
    if ball4.y + ball4.height ≥ (WINDOW_HEIGHT : ℚ) then true else s1.game_over
  { s1 with ball := ball4, paddle := paddle1, game_over := game_over1 }

/-- States that `main` can reach: `setup` on the initial globals, followed by
any interleaving of `process_input` and `update` calls whose `delta_time`
satisfies `ok`. -/
inductive ReachableWith (ok : ℚ → Prop) (WINDOW_WIDTH WINDOW_HEIGHT : Int) : State → Prop
  | start (window_ok : Bool) :
      ReachableWith ok WINDOW_WIDTH WINDOW_HEIGHT
        (setup WINDOW_WIDTH WINDOW_HEIGHT (globals window_ok))
  | input (event : SDL_Event) {s : State} :
      ReachableWith ok WINDOW_WIDTH WINDOW_HEIGHT s →
      ReachableWith ok WINDOW_WIDTH WINDOW_HEIGHT (process_input event s)
  | step (delta_time : ℚ) {s : State} :
      ok delta_time →
      ReachableWith ok WINDOW_WIDTH WINDOW_HEIGHT s →
      ReachableWith ok WINDOW_WIDTH WINDOW_HEIGHT
        (update WINDOW_WIDTH WINDOW_HEIGHT delta_time s)

/-- Reachable states when every frame time is non-negative, as it is for the
unsigned tick difference of line 126. -/
def Reachable (WINDOW_WIDTH WINDOW_HEIGHT : Int) (s : State) : Prop :=
  ReachableWith (fun d => 0 ≤ d) WINDOW_WIDTH WINDOW_HEIGHT s

/-- The sign of a rational as -1, 0 or 1. -/
def sign_of (q : ℚ) : Int :=
  if 0 < q then 1 else if q < 0 then -1 else 0

/-! ## Definitions used in the statements

Positions left by the wall tests, the ball as the later tests of `update` see
it, and the concrete states at which the statements are evaluated. -/

/-- The ball as line 154 sees it: after the advance, the vertical-wall tests
and the top-wall test. -/
def ball_at_floor_test (W : Int) (dt : ℚ) (s : State) : game_object :=
  ball_top_wall (ball_vertical_walls W (advance dt s).ball)

/-- The ball as line 161 sees it: after the advance and the four wall
tests. -/
def ball_at_paddle_test (W H : Int) (dt : ℚ) (s : State) : game_object :=
  ball_floor H (ball_at_floor_test W dt s)

/-- The horizontal position that lines 141-148 leave, as a function of the
width and the position they find. -/
def clamp_x (W : Int) (w x : ℚ) : ℚ :=
  let x1 := if x ≤ 0 then 0 else x
  if x1 + w ≥ (W : ℚ) then (W : ℚ) - w else x1

/-- The vertical position that lines 150-158 leave, as a function of the
height and the position they find. -/
def clamp_y (H : Int) (h y : ℚ) : ℚ :=
  let y1 := if y ≤ 0 then 0 else y
  if y1 + h ≥ (H : ℚ) then (H : ℚ) - h else y1

/-- A body without velocity whose position the wall tests leave alone. -/
def at_rest (W H : Int) (b : game_object) : Prop :=
  b.vel_x = 0 ∧ b.vel_y = 0 ∧ clamp_x W b.width b.x = b.x ∧ clamp_y H b.height b.y = b.y

/-- The four collision stages of `update`, in the order of lines 141-166. -/
def ball_collisions (W H : Int) (p b : game_object) : game_object :=
  ball_paddle p (ball_floor H (ball_top_wall (ball_vertical_walls W b)))

/-- A ball as tall as a 600-pixel window, five pixels above the top edge, at
rest. -/
def tall_ball_state : State :=
  { game_is_running := true
    game_over := false
    ball := { x := 100, y := -5, width := 15, height := 600, vel_x := 0, vel_y := 0 }
    paddle := { x := 350, y := 560, width := 100, height := 20, vel_x := 0, vel_y := 0 } }

/-- The state after the right key went down and a three-second frame passed,
in an 800 by 600 window: the ball is on the floor and the paddle bounced off
the right wall. -/
def game_over_state : State :=
  update 800 600 3 (process_input ⟨SDL_KEYDOWN, SDLK_k⟩ (setup 800 600 (globals true)))

/-- A ball that reaches the left wall and the floor in the same frame. -/
def corner_state : State :=
  { game_is_running := true
    game_over := false
    ball := { x := 1, y := 580, width := 15, height := 15, vel_x := -300, vel_y := 200 }
    paddle := { x := 350, y := 560, width := 100, height := 20, vel_x := 0, vel_y := 0 } }

/-- A ball that reaches the top wall while it overlaps a paddle placed at the
top of the window. -/
def top_paddle_state : State :=
  { game_is_running := true
    game_over := false
    ball := { x := 100, y := 1, width := 15, height := 15, vel_x := 0, vel_y := -200 }
    paddle := { x := 80, y := 10, width := 100, height := 20, vel_x := 0, vel_y := 0 } }

/-- A ball moving left and down, one pixel from the left wall, far above the
floor and the paddle. -/
def left_wall_state : State :=
  { game_is_running := true
    game_over := false
    ball := { x := 1, y := 100, width := 15, height := 15, vel_x := -300, vel_y := 200 }
    paddle := { x := 350, y := 560, width := 100, height := 20, vel_x := 0, vel_y := 0 } }

/-- A ball with `vel_x = 50`, `vel_y = 100` just above the paddle of an 800 by
600 window. -/
def paddle_hit_state : State :=
  { game_is_running := true
    game_over := false
    ball := { x := 380, y := 540, width := 15, height := 15, vel_x := 50, vel_y := 100 }
    paddle := { x := 350, y := 560, width := 100, height := 20, vel_x := 0, vel_y := 0 } }

/-- A resting paddle five pixels beyond the left wall. -/
def paddle_outside_state : State :=
  { game_is_running := true
    game_over := false
    ball := { x := 100, y := 100, width := 15, height := 15, vel_x := 300, vel_y := 200 }
    paddle := { x := -5, y := 560, width := 100, height := 20, vel_x := 0, vel_y := 0 } }

/-- A ball that reaches the floor line while it overlaps the paddle
horizontally. -/
def floor_over_paddle_state : State :=
  { game_is_running := true
    game_over := false
    ball := { x := 380, y := 570, width := 15, height := 15, vel_x := 50, vel_y := 200 }
    paddle := { x := 350, y := 560, width := 100, height := 20, vel_x := 0, vel_y := 0 } }

/-! ## The same frame in binary32 arithmetic

The fields of `game_object` are C `float`s.  The definitions below repeat
`setup` and `update` with every sum, difference, product and integer
conversion rounded to binary32, to nearest with ties to even, as a C compiler
that evaluates `float` expressions in `float` does.  A value of the model is
the rational that the float denotes; infinities and NaN are not modelled, so
the definitions follow the code as long as no result exceeds the largest
finite binary32 number. -/

/-- Rounding of a rational to the nearest integer, a tie going to the even
neighbour. -/
def round_even (r : ℚ) : Int :=
  if r - (⌊r⌋ : ℚ) < 1 / 2 then ⌊r⌋
  else if 1 / 2 < r - (⌊r⌋ : ℚ) then ⌊r⌋ + 1
  else if ⌊r⌋ % 2 = 0 then ⌊r⌋ else ⌊r⌋ + 1

/-- Exponent of the last binary digit that a format with `prec` digits and
least normal exponent `emin` keeps of `q`. -/
def ulp_exponent (prec : Nat) (emin : Int) (q : ℚ) : Int :=
  max (Int.log 2 |q|) emin - ((prec : Int) - 1)

/-- Rounding of `q` to the nearest number of the binary floating-point format
with `prec` digits and least normal exponent `emin`, ties to even. -/
def round_to (prec : Nat) (emin : Int) (q : ℚ) : ℚ :=
  if q = 0 then 0
  else (round_even (q / (2 : ℚ) ^ ulp_exponent prec emin q) : ℚ)
    * (2 : ℚ) ^ ulp_exponent prec emin q

/-- Rounding to binary32, the C `float`: 24 digits, least normal exponent
-126. -/
def fl32 (q : ℚ) : ℚ := round_to 24 (-126) q

/-- Rounding to binary64, the C `double`: 53 digits, least normal exponent
-1022. -/
def fl64 (q : ℚ) : ℚ := round_to 53 (-1022) q

/-- Lines 94-108 in binary32: `WINDOW_WIDTH / 2` and `WINDOW_HEIGHT - 40` are
C integers converted to `float`, `paddle.width / 2` is a `float` division. -/
def setup32 (WINDOW_WIDTH WINDOW_HEIGHT : Int) (s : State) : State :=
  { s with
    ball := { width := 15, height := 15, x := 0, y := 0, vel_x := 300, vel_y := 200 }
    paddle :=
      { width := 100, height := 20
        x := fl32 (fl32 ((Int.tdiv WINDOW_WIDTH 2 : Int) : ℚ) - fl32 ((100 : ℚ) / 2))
        y := fl32 ((WINDOW_HEIGHT - 40 : Int) : ℚ)
        vel_x := 0, vel_y := 0 } }

/-- Lines 131-137 in binary32: each product is rounded, then each sum. -/
def advance32 (delta_time : ℚ) (s : State) : State :=
  let ball1 := { s.ball with x := fl32 (s.ball.x + fl32 (s.ball.vel_x * delta_time)) }
  let ball2 := { ball1 with y := fl32 (ball1.y + fl32 (ball1.vel_y * delta_time)) }
  let paddle1 := { s.paddle with x := fl32 (s.paddle.x + fl32 (s.paddle.vel_x * delta_time)) }
  let paddle2 := { paddle1 with y := fl32 (paddle1.y + fl32 (paddle1.vel_y * delta_time)) }
  { s with ball := ball2, paddle := paddle2 }

/-- Lines 141-148 in binary32. -/
def ball_vertical_walls32 (WINDOW_WIDTH : Int) (ball : game_object) : game_object :=
  let ball1 := if ball.x ≤ 0 then { ball with x := 0, vel_x := fl32 (ball.vel_x * -1) } else ball
  let ball2 := if fl32 (ball1.x + ball1.width) ≥ fl32 (WINDOW_WIDTH : ℚ) then
      { ball1 with x := fl32 (fl32 (WINDOW_WIDTH : ℚ) - ball1.width),
                   vel_x := fl32 (ball1.vel_x * -1) }
    else ball1
  ball2

/-- Lines 150-153 in binary32. -/
def ball_top_wall32 (ball : game_object) : game_object :=
  if ball.y ≤ 0 then { ball with y := 0, vel_y := fl32 (ball.vel_y * -1) } else ball

/-- Lines 154-158 in binary32. -/
def ball_floor32 (WINDOW_HEIGHT : Int) (ball : game_object) : game_object :=
  if fl32 (ball.y + ball.height) ≥ fl32 (WINDOW_HEIGHT : ℚ) then
    { ball with y := fl32 (fl32 (WINDOW_HEIGHT : ℚ) - ball.height), vel_y := 0, vel_x := 0 }
  else ball

/-- The condition of lines 161-163 in binary32. -/
def hits_paddle32 (paddle ball : game_object) : Prop :=
  fl32 (ball.y + ball.height) ≥ paddle.y ∧ fl32 (ball.x + ball.width) ≥ paddle.x ∧
    ball.x ≤ fl32 (paddle.x + paddle.width)

instance (paddle ball : game_object) : Decidable (hits_paddle32 paddle ball) := by
  unfold hits_paddle32; infer_instance

/-- Lines 161-166 in binary32: the literals `-1.02` and `1.02` are `double`s,
the product is taken in `double` and then stored in a `float`. -/
def ball_paddle32 (paddle ball : game_object) : game_object :=
  if hits_paddle32 paddle ball then
    { ball with vel_y := fl32 (fl64 (ball.vel_y * fl64 (-102 / 100))),
                vel_x := fl32 (fl64 (ball.vel_x * fl64 (102 / 100))) }
  else ball

/-- Lines 169-176 in binary32. -/
def paddle_walls32 (WINDOW_WIDTH : Int) (paddle : game_object) : game_object :=
  let paddle1 := if paddle.x ≤ 0 then { paddle with x := 0, vel_x := 500 } else paddle
  let paddle2 := if fl32 (paddle1.x + paddle1.width) ≥ fl32 (WINDOW_WIDTH : ℚ) then
      { paddle1 with x := fl32 (fl32 (WINDOW_WIDTH : ℚ) - paddle1.width), vel_x := -500 }
    else paddle1
  paddle2

/-- Lines 131-184 of `update` in binary32, as a function of the state and of
the `float` variable `delta_time`. -/
def update32 (WINDOW_WIDTH WINDOW_HEIGHT : Int) (delta_time : ℚ) (s : State) : State :=
  let s1 := advance32 delta_time s
  let ball1 := ball_vertical_walls32 WINDOW_WIDTH s1.ball
  let ball2 := ball_top_wall32 ball1
  let ball3 := ball_floor32 WINDOW_HEIGHT ball2
  let ball4 := ball_paddle32 s1.paddle ball3
  let paddle1 := paddle_walls32 WINDOW_WIDTH s1.paddle
  let game_over1 :=
    if fl32 (ball4.y + ball4.height) ≥ fl32 (WINDOW_HEIGHT : ℚ) then true else s1.game_over
  { s1 with ball := ball4, paddle := paddle1, game_over := game_over1 }

/-- `update32` applied `n` times with the same `delta_time` and no input in
between. -/
def update32_n (WINDOW_WIDTH WINDOW_HEIGHT : Int) (delta_time : ℚ) : Nat → State → State
  | 0, s => s
  | n + 1, s =>
      update32 WINDOW_WIDTH WINDOW_HEIGHT delta_time
        (update32_n WINDOW_WIDTH WINDOW_HEIGHT delta_time n s)

/-- The trace that direct accumulation predicts after `n` frames, up to a
tolerance of `3 n / 8192` in the ball's position: velocity, sizes, paddle,
flags as `setup` left them, the ball near `(5 n, 10 n / 3)`. -/
def near_golden (W H : Int) (window_ok : Bool) (n : Nat) (s : State) : Prop :=
  s.game_is_running = window_ok ∧ s.game_over = false ∧
  s.ball.width = 15 ∧ s.ball.height = 15 ∧ s.ball.vel_x = 300 ∧ s.ball.vel_y = 200 ∧
  |s.ball.x - 5 * (n : ℚ)| ≤ 3 * (n : ℚ) / 8192 ∧
  |s.ball.y - 10 * (n : ℚ) / 3| ≤ 3 * (n : ℚ) / 8192 ∧
  s.paddle = { x := (W : ℚ) / 2 - 50, y := (H : ℚ) - 40, width := 100, height := 20,
               vel_x := 0, vel_y := 0 }

/-! ## How `update` is assembled from its stages -/

theorem update_ball (W H : Int) (dt : ℚ) (s : State) :
    (update W H dt s).ball =
      ball_paddle (advance dt s).paddle
        (ball_floor H (ball_top_wall (ball_vertical_walls W (advance dt s).ball))) := rfl

theorem update_paddle (W H : Int) (dt : ℚ) (s : State) :
    (update W H dt s).paddle = paddle_walls W (advance dt s).paddle := rfl

theorem ball_paddle_x (p b : game_object) : (ball_paddle p b).x = b.x := by
  unfold ball_paddle; split_ifs <;> rfl

theorem ball_paddle_y (p b : game_object) : (ball_paddle p b).y = b.y := by
  unfold ball_paddle; split_ifs <;> rfl

theorem ball_paddle_width (p b : game_object) : (ball_paddle p b).width = b.width := by
  unfold ball_paddle; split_ifs <;> rfl

theorem ball_paddle_height (p b : game_object) : (ball_paddle p b).height = b.height := by
  unfold ball_paddle; split_ifs <;> rfl

theorem ball_floor_x (H : Int) (b : game_object) : (ball_floor H b).x = b.x := by
  unfold ball_floor; split_ifs <;> rfl

theorem ball_floor_width (H : Int) (b : game_object) : (ball_floor H b).width = b.width := by
  unfold ball_floor; split_ifs <;> rfl

theorem ball_floor_height (H : Int) (b : game_object) : (ball_floor H b).height = b.height := by
  unfold ball_floor; split_ifs <;> rfl

theorem ball_top_wall_x (b : game_object) : (ball_top_wall b).x = b.x := by
  unfold ball_top_wall; split_ifs <;> rfl

theorem ball_top_wall_width (b : game_object) : (ball_top_wall b).width = b.width := by
  unfold ball_top_wall; split_ifs <;> rfl

theorem ball_top_wall_height (b : game_object) : (ball_top_wall b).height = b.height := by
  unfold ball_top_wall; split_ifs <;> rfl

theorem ball_top_wall_vel_x (b : game_object) : (ball_top_wall b).vel_x = b.vel_x := by
  unfold ball_top_wall; split_ifs <;> rfl

theorem ball_top_wall_y_nonneg (b : game_object) : 0 ≤ (ball_top_wall b).y := by
  unfold ball_top_wall; split_ifs with h
  · exact le_refl _
  · exact le_of_lt (not_le.mp h)

theorem ball_vertical_walls_y (W : Int) (b : game_object) :
    (ball_vertical_walls W b).y = b.y := by
  unfold ball_vertical_walls; dsimp only; split_ifs <;> rfl

theorem ball_vertical_walls_width (W : Int) (b : game_object) :
    (ball_vertical_walls W b).width = b.width := by
  unfold ball_vertical_walls; dsimp only; split_ifs <;> rfl

theorem ball_vertical_walls_height (W : Int) (b : game_object) :
    (ball_vertical_walls W b).height = b.height := by
  unfold ball_vertical_walls; dsimp only; split_ifs <;> rfl

theorem ball_vertical_walls_vel_y (W : Int) (b : game_object) :
    (ball_vertical_walls W b).vel_y = b.vel_y := by
  unfold ball_vertical_walls; dsimp only; split_ifs <;> rfl

/-- After the two vertical-wall tests the body lies between the walls,
provided it is not wider than the window. -/
theorem ball_vertical_walls_x_bounds (W : Int) (b : game_object) (hw : b.width ≤ (W : ℚ)) :
    0 ≤ (ball_vertical_walls W b).x ∧ (ball_vertical_walls W b).x ≤ (W : ℚ) - b.width := by
  unfold ball_vertical_walls; dsimp only
  split_ifs with h1 h2 h2 <;> (try dsimp only at *) <;> constructor <;> linarith

/-- After the floor test the body is not below the floor line, provided it
started at or below the top and is not taller than the window. -/
theorem ball_floor_y_bounds (H : Int) (b : game_object) (h0 : 0 ≤ b.y)
    (hh : b.height ≤ (H : ℚ)) :
    0 ≤ (ball_floor H b).y ∧ (ball_floor H b).y ≤ (H : ℚ) - b.height := by
  unfold ball_floor
  split_ifs with h1 <;> (try dsimp only) <;> constructor <;> linarith

theorem ball_floor_y_add_height (H : Int) (b : game_object) :
    ((ball_floor H b).y + (ball_floor H b).height ≥ (H : ℚ)) ↔ (b.y + b.height ≥ (H : ℚ)) := by
  unfold ball_floor
  split_ifs with h
  · simp only [sub_add_cancel, ge_iff_le, le_refl, true_iff]; exact h
  · exact Iff.rfl

/-- The test of line 179 succeeds exactly when the test of line 154 did. -/
theorem update_game_over (W H : Int) (dt : ℚ) (s : State) :
    (update W H dt s).game_over =
      if (ball_at_floor_test W dt s).y + (ball_at_floor_test W dt s).height ≥ (H : ℚ)
      then true else s.game_over := by
  have key := ball_floor_y_add_height H (ball_at_floor_test W dt s)
  unfold ball_at_floor_test at *
  simp only [update, ball_paddle_y, ball_paddle_height]
  split_ifs with h1 h2 h2
  · rfl
  · exact absurd (key.mp h1) h2
  · exact absurd (key.mpr h2) h1
  · rfl

theorem paddle_walls_y (W : Int) (p : game_object) : (paddle_walls W p).y = p.y := by
  unfold paddle_walls; dsimp only; split_ifs <;> rfl

theorem paddle_walls_width (W : Int) (p : game_object) :
    (paddle_walls W p).width = p.width := by
  unfold paddle_walls; dsimp only; split_ifs <;> rfl

theorem paddle_walls_height (W : Int) (p : game_object) :
    (paddle_walls W p).height = p.height := by
  unfold paddle_walls; dsimp only; split_ifs <;> rfl

theorem paddle_walls_vel_y (W : Int) (p : game_object) :
    (paddle_walls W p).vel_y = p.vel_y := by
  unfold paddle_walls; dsimp only; split_ifs <;> rfl

theorem paddle_walls_x_bounds (W : Int) (p : game_object) (hw : p.width ≤ (W : ℚ)) :
    0 ≤ (paddle_walls W p).x ∧ (paddle_walls W p).x ≤ (W : ℚ) - p.width := by
  unfold paddle_walls; dsimp only
  split_ifs with h1 h2 h2 <;> (try dsimp only at *) <;> constructor <;> linarith

theorem process_input_game_over (ev : SDL_Event) (s : State) :
    (process_input ev s).game_over = s.game_over := by
  unfold process_input; dsimp only; split_ifs <;> rfl

theorem process_input_ball (ev : SDL_Event) (s : State) :
    (process_input ev s).ball = s.ball := by
  unfold process_input; dsimp only; split_ifs <;> rfl

theorem process_input_paddle_y (ev : SDL_Event) (s : State) :
    (process_input ev s).paddle.y = s.paddle.y := by
  unfold process_input; dsimp only; split_ifs <;> rfl

theorem process_input_paddle_width (ev : SDL_Event) (s : State) :
    (process_input ev s).paddle.width = s.paddle.width := by
  unfold process_input; dsimp only; split_ifs <;> rfl

theorem process_input_paddle_vel_y (ev : SDL_Event) (s : State) :
    (process_input ev s).paddle.vel_y = s.paddle.vel_y := by
  unfold process_input; dsimp only; split_ifs <;> rfl

/-- A state reachable with non-negative frame times is reachable with
arbitrary ones. -/
theorem reachable_any (W H : Int) (s : State) (hr : Reachable W H s) :
    ReachableWith (fun _ => True) W H s := by
  induction hr with
  | start window_ok => exact ReachableWith.start window_ok
  | input ev _ ih => exact ReachableWith.input ev ih
  | step dt _ _ ih => exact ReachableWith.step dt trivial ih

/-- In every reachable state the paddle has the width and the vertical
position that `setup` gave it, and no vertical velocity. -/
theorem reachable_paddle_fixed (ok : ℚ → Prop) (W H : Int) (s : State)
    (hr : ReachableWith ok W H s) :
    s.paddle.width = 100 ∧ s.paddle.vel_y = 0 ∧ s.paddle.y = (H : ℚ) - 40 := by
  induction hr with
  | start window_ok => simp [setup]
  | input ev _ ih =>
    rw [process_input_paddle_width, process_input_paddle_vel_y, process_input_paddle_y]
    exact ih
  | step dt _ _ ih =>
    obtain ⟨h1, h2, h3⟩ := ih
    rw [update_paddle, paddle_walls_width, paddle_walls_vel_y, paddle_walls_y]
    simp only [advance]
    refine ⟨h1, h2, ?_⟩
    rw [h2, h3]; ring

/-! ## Bodies at rest on their clamped position -/

theorem ball_vertical_walls_x (W : Int) (b : game_object) :
    (ball_vertical_walls W b).x = clamp_x W b.width b.x := by
  unfold ball_vertical_walls clamp_x; dsimp only
  split_ifs <;> simp_all

theorem ball_floor_top_y (H : Int) (b : game_object) :
    (ball_floor H (ball_top_wall b)).y = clamp_y H b.height b.y := by
  unfold ball_floor ball_top_wall clamp_y; dsimp only
  split_ifs <;> simp_all

theorem clamp_x_idem (W : Int) (w x : ℚ) : clamp_x W w (clamp_x W w x) = clamp_x W w x := by
  unfold clamp_x; dsimp only
  split_ifs <;> first | rfl | linarith

theorem clamp_y_idem (H : Int) (h y : ℚ) : clamp_y H h (clamp_y H h y) = clamp_y H h y := by
  unfold clamp_y; dsimp only
  split_ifs <;> first | rfl | linarith

theorem ball_vertical_walls_vel_x_zero (W : Int) (b : game_object) (h : b.vel_x = 0) :
    (ball_vertical_walls W b).vel_x = 0 := by
  unfold ball_vertical_walls; dsimp only
  split_ifs <;> simp [h]

theorem ball_top_wall_vel_y_zero (b : game_object) (h : b.vel_y = 0) :
    (ball_top_wall b).vel_y = 0 := by
  unfold ball_top_wall; split_ifs <;> simp [h]

theorem ball_floor_vel_x_zero (H : Int) (b : game_object) (h : b.vel_x = 0) :
    (ball_floor H b).vel_x = 0 := by
  unfold ball_floor; split_ifs <;> simp [h]

theorem ball_floor_vel_y_zero (H : Int) (b : game_object) (h : b.vel_y = 0) :
    (ball_floor H b).vel_y = 0 := by
  unfold ball_floor; split_ifs <;> simp [h]

theorem ball_paddle_vel_x_zero (p b : game_object) (h : b.vel_x = 0) :
    (ball_paddle p b).vel_x = 0 := by
  unfold ball_paddle; split_ifs <;> simp [h]

theorem ball_paddle_vel_y_zero (p b : game_object) (h : b.vel_y = 0) :
    (ball_paddle p b).vel_y = 0 := by
  unfold ball_paddle; split_ifs <;> simp [h]

theorem update_ball_collisions (W H : Int) (dt : ℚ) (s : State) :
    (update W H dt s).ball = ball_collisions W H (advance dt s).paddle (advance dt s).ball := rfl

theorem ball_collisions_x (W H : Int) (p b : game_object) :
    (ball_collisions W H p b).x = clamp_x W b.width b.x := by
  unfold ball_collisions
  rw [ball_paddle_x, ball_floor_x, ball_top_wall_x, ball_vertical_walls_x]

theorem ball_collisions_y (W H : Int) (p b : game_object) :
    (ball_collisions W H p b).y = clamp_y H b.height b.y := by
  unfold ball_collisions
  rw [ball_paddle_y, ball_floor_top_y, ball_vertical_walls_height, ball_vertical_walls_y]

theorem ball_collisions_width (W H : Int) (p b : game_object) :
    (ball_collisions W H p b).width = b.width := by
  unfold ball_collisions
  rw [ball_paddle_width, ball_floor_width, ball_top_wall_width, ball_vertical_walls_width]

theorem ball_collisions_height (W H : Int) (p b : game_object) :
    (ball_collisions W H p b).height = b.height := by
  unfold ball_collisions
  rw [ball_paddle_height, ball_floor_height, ball_top_wall_height, ball_vertical_walls_height]

/-- The collision stages leave a body at rest as it is. -/
theorem ball_collisions_at_rest (W H : Int) (p b : game_object) (h : at_rest W H b) :
    ball_collisions W H p b = b := by
  obtain ⟨hvx, hvy, hx, hy⟩ := h
  apply game_object.ext
  · rw [ball_collisions_x, hx]
  · rw [ball_collisions_y, hy]
  · exact ball_collisions_width W H p b
  · exact ball_collisions_height W H p b
  · rw [hvx]
    apply ball_paddle_vel_x_zero
    apply ball_floor_vel_x_zero
    rw [ball_top_wall_vel_x]
    exact ball_vertical_walls_vel_x_zero W b hvx
  · rw [hvy]
    apply ball_paddle_vel_y_zero
    apply ball_floor_vel_y_zero
    apply ball_top_wall_vel_y_zero
    rw [ball_vertical_walls_vel_y]
    exact hvy

/-- When the floor test of line 154 succeeds, the collision stages leave the
ball at rest. -/
theorem ball_collisions_floor_at_rest (W H : Int) (p b : game_object)
    (hf : (ball_top_wall (ball_vertical_walls W b)).y +
      (ball_top_wall (ball_vertical_walls W b)).height ≥ (H : ℚ)) :
    at_rest W H (ball_collisions W H p b) := by
  have hfl : ball_floor H (ball_top_wall (ball_vertical_walls W b)) =
      { ball_top_wall (ball_vertical_walls W b) with
        y := (H : ℚ) - (ball_top_wall (ball_vertical_walls W b)).height
        vel_y := 0, vel_x := 0 } := by
    unfold ball_floor; rw [if_pos hf]
  refine ⟨?_, ?_, ?_, ?_⟩
  · unfold ball_collisions
    apply ball_paddle_vel_x_zero
    rw [hfl]
  · unfold ball_collisions
    apply ball_paddle_vel_y_zero
    rw [hfl]
  · rw [ball_collisions_x, ball_collisions_width, clamp_x_idem]
  · rw [ball_collisions_y, ball_collisions_height, clamp_y_idem]

theorem advance_ball_at_rest (dt : ℚ) (s : State) (hx : s.ball.vel_x = 0)
    (hy : s.ball.vel_y = 0) : (advance dt s).ball = s.ball := by
  apply game_object.ext <;> simp [advance, hx, hy]

/-- Once `game_over` is set, the ball is at rest: an invariant of all
reachable states, whatever frame times occurred. -/
theorem reachable_game_over_at_rest (ok : ℚ → Prop) (W H : Int) (s : State)
    (hr : ReachableWith ok W H s) : s.game_over = true → at_rest W H s.ball := by
  induction hr with
  | start window_ok => intro h; exact absurd h (by simp [setup, globals])
  | input ev _ ih =>
    rw [process_input_game_over, process_input_ball]
    exact ih
  | @step dt s0 _ _ ih =>
    intro hg
    rw [update_game_over] at hg
    rw [update_ball_collisions]
    by_cases hf : (ball_at_floor_test W dt s0).y + (ball_at_floor_test W dt s0).height ≥ (H : ℚ)
    · exact ball_collisions_floor_at_rest W H _ _ hf
    · rw [if_neg hf] at hg
      have hrest := ih hg
      rw [advance_ball_at_rest dt s0 hrest.1 hrest.2.1,
        ball_collisions_at_rest W H _ _ hrest]
      exact hrest

/-! ## Which wall tests fire -/

theorem ball_vertical_walls_left (W : Int) (b : game_object) (hx : b.x ≤ 0)
    (hw : b.width < (W : ℚ)) :
    ball_vertical_walls W b = { b with x := 0, vel_x := b.vel_x * -1 } := by
  unfold ball_vertical_walls; dsimp only
  rw [if_pos hx]; dsimp only
  rw [if_neg (by rw [zero_add]; exact not_le.mpr hw)]

theorem ball_vertical_walls_right (W : Int) (b : game_object)
    (hx : b.x + b.width ≥ (W : ℚ)) (hw : b.width < (W : ℚ)) :
    ball_vertical_walls W b = { b with x := (W : ℚ) - b.width, vel_x := b.vel_x * -1 } := by
  have h0 : ¬ b.x ≤ 0 := by intro h; linarith
  unfold ball_vertical_walls; dsimp only
  rw [if_neg h0, if_pos hx]

theorem ball_vertical_walls_none (W : Int) (b : game_object) (h0 : 0 < b.x)
    (h1 : b.x + b.width < (W : ℚ)) : ball_vertical_walls W b = b := by
  unfold ball_vertical_walls; dsimp only
  rw [if_neg (not_le.mpr h0), if_neg (not_le.mpr h1)]

theorem ball_top_wall_hit (b : game_object) (hy : b.y ≤ 0) :
    ball_top_wall b = { b with y := 0, vel_y := b.vel_y * -1 } := by
  unfold ball_top_wall; rw [if_pos hy]

theorem ball_top_wall_none (b : game_object) (hy : 0 < b.y) : ball_top_wall b = b := by
  unfold ball_top_wall; rw [if_neg (not_le.mpr hy)]

theorem ball_floor_none (H : Int) (b : game_object) (h : b.y + b.height < (H : ℚ)) :
    ball_floor H b = b := by
  unfold ball_floor; rw [if_neg (not_le.mpr h)]

theorem ball_floor_fires (H : Int) (b : game_object) (h : b.y + b.height ≥ (H : ℚ)) :
    ball_floor H b = { b with y := (H : ℚ) - b.height, vel_y := 0, vel_x := 0 } := by
  unfold ball_floor; rw [if_pos h]

/-- A ball shorter than the window whose advanced bottom edge is above the
floor line is still above it after the top-wall test. -/
theorem ball_top_wall_above_floor (H : Int) (b : game_object) (hh : b.height < (H : ℚ))
    (hb : b.y + b.height < (H : ℚ)) :
    (ball_top_wall b).y + (ball_top_wall b).height < (H : ℚ) := by
  unfold ball_top_wall
  split_ifs with h
  · dsimp only; linarith
  · exact hb

theorem sign_of_neg (q : ℚ) : sign_of (q * -1) = - sign_of q := by
  unfold sign_of
  split_ifs <;> first | rfl | (exfalso; linarith)

theorem sign_of_speed_up (q : ℚ) : sign_of (q * (102 / 100)) = sign_of q := by
  unfold sign_of
  split_ifs <;> first | rfl | (exfalso; linarith)

theorem ball_paddle_vel_x_sign (p b : game_object) :
    sign_of (ball_paddle p b).vel_x = sign_of b.vel_x := by
  unfold ball_paddle
  split_ifs
  · exact sign_of_speed_up _
  · rfl

theorem ball_paddle_miss (p b : game_object) (h : ¬ hits_paddle p b) : ball_paddle p b = b := by
  unfold ball_paddle; rw [if_neg h]

theorem ball_paddle_hit (p b : game_object) (h : hits_paddle p b) :
    ball_paddle p b =
      { b with vel_y := b.vel_y * (-102 / 100), vel_x := b.vel_x * (102 / 100) } := by
  unfold ball_paddle; rw [if_pos h]

/-- Half of an even `WINDOW_WIDTH`, as `setup` computes it. -/
theorem tdiv_two_cast (W : Int) (h : 2 ∣ W) : ((Int.tdiv W 2 : Int) : ℚ) = (W : ℚ) / 2 := by
  rw [Int.tdiv_eq_ediv_of_dvd h, Int.cast_div h (by norm_num)]
  norm_num

/-! ## The ball stays inside the window -/

/-- C1: for every state with `0 < ball.width ≤ WINDOW_WIDTH` and
`0 < ball.height ≤ WINDOW_HEIGHT` and every `delta_time`, after `update` the
ball satisfies `0 ≤ x ≤ WINDOW_WIDTH - width` and `0 ≤ y ≤ WINDOW_HEIGHT - height`. -/
theorem ball_stays_inside_window (W H : Int) (delta_time : ℚ) (s : State)
    (_hw0 : 0 < s.ball.width) (hw : s.ball.width ≤ (W : ℚ))
    (_hh0 : 0 < s.ball.height) (hh : s.ball.height ≤ (H : ℚ)) :
    0 ≤ (update W H delta_time s).ball.x ∧
    (update W H delta_time s).ball.x ≤ (W : ℚ) - (update W H delta_time s).ball.width ∧
    0 ≤ (update W H delta_time s).ball.y ∧
    (update W H delta_time s).ball.y ≤ (H : ℚ) - (update W H delta_time s).ball.height := by
  have hx := ball_vertical_walls_x_bounds W (advance delta_time s).ball hw
  have hy := ball_floor_y_bounds H
    (ball_top_wall (ball_vertical_walls W (advance delta_time s).ball))
    (ball_top_wall_y_nonneg _)
    (by rw [ball_top_wall_height, ball_vertical_walls_height]; exact hh)
  rw [ball_top_wall_height, ball_vertical_walls_height] at hy
  simp only [update_ball, ball_paddle_x, ball_paddle_y, ball_paddle_width, ball_paddle_height,
    ball_floor_x, ball_floor_width, ball_floor_height, ball_top_wall_x, ball_top_wall_width,
    ball_top_wall_height, ball_vertical_walls_width, ball_vertical_walls_height]
  exact ⟨hx.1, hx.2, hy.1, hy.2⟩

/-- Witness of C1: the ball of `setup` in an 800 by 600 window, one frame of
a sixtieth of a second. -/
theorem ball_stays_inside_window_witness :
    0 < (setup 800 600 (globals true)).ball.width ∧
    (setup 800 600 (globals true)).ball.width ≤ ((800 : Int) : ℚ) ∧
    0 < (setup 800 600 (globals true)).ball.height ∧
    (setup 800 600 (globals true)).ball.height ≤ ((600 : Int) : ℚ) ∧
    0 ≤ (update 800 600 (1 / 60) (setup 800 600 (globals true))).ball.x ∧
    (update 800 600 (1 / 60) (setup 800 600 (globals true))).ball.x ≤
      ((800 : Int) : ℚ) - (update 800 600 (1 / 60) (setup 800 600 (globals true))).ball.width ∧
    0 ≤ (update 800 600 (1 / 60) (setup 800 600 (globals true))).ball.y ∧
    (update 800 600 (1 / 60) (setup 800 600 (globals true))).ball.y ≤
      ((600 : Int) : ℚ) - (update 800 600 (1 / 60) (setup 800 600 (globals true))).ball.height :=
  ⟨by norm_num [setup], by norm_num [setup], by norm_num [setup], by norm_num [setup],
    ball_stays_inside_window 800 600 (1 / 60) (setup 800 600 (globals true))
      (by norm_num [setup]) (by norm_num [setup]) (by norm_num [setup]) (by norm_num [setup])⟩

/-! ## The paddle stays inside the window -/

/-- C2: in every state reachable from `setup` by `process_input` and `update`
steps with non-negative `delta_time`, when `WINDOW_WIDTH ≥ 100`, the state
after an `update` has `0 ≤ paddle.x ≤ WINDOW_WIDTH - paddle.width`, with
`paddle.width = 100`, and `paddle.y` is still `WINDOW_HEIGHT - 40`. -/
theorem paddle_stays_inside_window (W H : Int) (delta_time : ℚ) (s : State)
    (hW : 100 ≤ W) (hr : Reachable W H s) (hdt : 0 ≤ delta_time) :
    0 ≤ (update W H delta_time s).paddle.x ∧
    (update W H delta_time s).paddle.x ≤ (W : ℚ) - (update W H delta_time s).paddle.width ∧
    (update W H delta_time s).paddle.width = 100 ∧
    (update W H delta_time s).paddle.y = (H : ℚ) - 40 ∧
    (update W H delta_time s).paddle.y = (setup W H (globals true)).paddle.y := by
  have hfix := reachable_paddle_fixed _ W H _
    (ReachableWith.step delta_time hdt hr : ReachableWith _ W H (update W H delta_time s))
  obtain ⟨hw, -, -⟩ := reachable_paddle_fixed _ W H s hr
  have hWq : (100 : ℚ) ≤ (W : ℚ) := by exact_mod_cast hW
  have hb := paddle_walls_x_bounds W (advance delta_time s).paddle
    (by simp only [advance]; rw [hw]; exact hWq)
  refine ⟨?_, ?_, hfix.1, hfix.2.2, ?_⟩
  · rw [update_paddle]; exact hb.1
  · rw [update_paddle, paddle_walls_width]; exact hb.2
  · rw [hfix.2.2]; simp [setup]

/-- Witness of C2: the state after the right key went down and one frame
passed, in an 800 by 600 window. -/
theorem paddle_stays_inside_window_witness :
    (100 : Int) ≤ 800 ∧
    Reachable 800 600 (process_input ⟨SDL_KEYDOWN, SDLK_k⟩ (setup 800 600 (globals true))) ∧
    0 ≤ (update 800 600 (1 / 60)
      (process_input ⟨SDL_KEYDOWN, SDLK_k⟩ (setup 800 600 (globals true)))).paddle.x ∧
    (update 800 600 (1 / 60)
      (process_input ⟨SDL_KEYDOWN, SDLK_k⟩ (setup 800 600 (globals true)))).paddle.y =
        ((600 : Int) : ℚ) - 40 :=
  have h := paddle_stays_inside_window 800 600 (1 / 60)
    (process_input ⟨SDL_KEYDOWN, SDLK_k⟩ (setup 800 600 (globals true)))
    (by decide) (ReachableWith.input _ (ReachableWith.start true)) (by norm_num)
  ⟨by decide, ReachableWith.input _ (ReachableWith.start true), h.1, h.2.2.2.1⟩

/-! ## `game_over` is terminal and entered by the floor test only -/

/-- C3 fails as stated: from `tall_ball_state` one `update` in an 800 by 600
window sets `game_over`, although after the position advance the ball's bottom
edge is at 595, above `WINDOW_HEIGHT`; the top-wall clamp moved it to 600. -/
theorem game_over_without_advance_past_floor :
    tall_ball_state.game_over = false ∧
    (update 800 600 0 tall_ball_state).game_over = true ∧
    (advance 0 tall_ball_state).ball.y + (advance 0 tall_ball_state).ball.height = 595 ∧
    ¬ ((advance 0 tall_ball_state).ball.y + (advance 0 tall_ball_state).ball.height
        ≥ ((600 : Int) : ℚ)) := by
  refine ⟨rfl, ?_, ?_, ?_⟩
  · rw [update_game_over]
    norm_num [ball_at_floor_test, ball_top_wall, ball_vertical_walls, advance, tall_ball_state]
  · norm_num [advance, tall_ball_state]
  · norm_num [advance, tall_ball_state]

/-- C3 (amended): `process_input` leaves `game_over` unchanged; `update` keeps
a true `game_over` true; and when `update` turns `game_over` from false to
true, the ball's bottom edge after the position advance and the top-wall clamp
was at or past `WINDOW_HEIGHT`, which for `ball.height < WINDOW_HEIGHT` is the
bottom edge right after the position advance. -/
theorem game_over_terminal_and_floor_only (W H : Int) (ev : SDL_Event) (delta_time : ℚ)
    (s : State) :
    (process_input ev s).game_over = s.game_over ∧
    (s.game_over = true → (update W H delta_time s).game_over = true) ∧
    (s.game_over = false → (update W H delta_time s).game_over = true →
      (ball_at_floor_test W delta_time s).y + (ball_at_floor_test W delta_time s).height
        ≥ (H : ℚ)) ∧
    (s.ball.height < (H : ℚ) → s.game_over = false →
      (update W H delta_time s).game_over = true →
      (advance delta_time s).ball.y + (advance delta_time s).ball.height ≥ (H : ℚ)) := by
  have hfloor : s.game_over = false → (update W H delta_time s).game_over = true →
      (ball_at_floor_test W delta_time s).y + (ball_at_floor_test W delta_time s).height
        ≥ (H : ℚ) := by
    intro h0 h1
    rw [update_game_over] at h1
    by_contra hc
    rw [if_neg hc, h0] at h1
    exact Bool.false_ne_true h1
  refine ⟨process_input_game_over ev s, ?_, hfloor, ?_⟩
  · intro h
    rw [update_game_over, h]
    split_ifs <;> rfl
  · intro hh h0 h1
    have h2 := hfloor h0 h1
    unfold ball_at_floor_test at h2
    rw [ball_top_wall_height, ball_vertical_walls_height] at h2
    have hadv : (advance delta_time s).ball.height = s.ball.height := rfl
    unfold ball_top_wall at h2
    rw [ball_vertical_walls_y] at h2
    split_ifs at h2 with h3
    · dsimp only at h2
      rw [hadv] at h2
      linarith
    · rw [ball_vertical_walls_y] at h2
      exact h2

/-- Witness of C3: the ball of `setup` after a three-second frame in an 800 by
600 window: `game_over` turns true and the advanced bottom edge is at 615. -/
theorem game_over_terminal_and_floor_only_witness :
    (setup 800 600 (globals true)).ball.height < ((600 : Int) : ℚ) ∧
    (setup 800 600 (globals true)).game_over = false ∧
    (update 800 600 3 (setup 800 600 (globals true))).game_over = true ∧
    (advance 3 (setup 800 600 (globals true))).ball.y +
      (advance 3 (setup 800 600 (globals true))).ball.height ≥ ((600 : Int) : ℚ) :=
  have hh : (setup 800 600 (globals true)).ball.height < ((600 : Int) : ℚ) := by
    norm_num [setup]
  have hg : (update 800 600 3 (setup 800 600 (globals true))).game_over = true := by
    rw [update_game_over]
    norm_num [ball_at_floor_test, ball_top_wall, ball_vertical_walls, advance, setup]
  ⟨hh, rfl, hg,
    (game_over_terminal_and_floor_only 800 600 ⟨0, 0⟩ 3 (setup 800 600 (globals true))).2.2.2
      hh rfl hg⟩

/-! ## What `update` still changes after `game_over` -/

/-- C4 fails as stated: `game_over_state` is reachable and has `game_over`
set, its paddle is at 700 with velocity -500, and a further `update` of two
seconds moves the paddle to 0 and turns its velocity to 500. -/
theorem paddle_moves_after_game_over :
    Reachable 800 600 game_over_state ∧
    game_over_state.game_over = true ∧
    game_over_state.paddle.x = 700 ∧
    game_over_state.paddle.vel_x = -500 ∧
    (update 800 600 2 game_over_state).paddle.x = 0 ∧
    (update 800 600 2 game_over_state).paddle.vel_x = 500 := by
  have hx : game_over_state.paddle.x = 700 := by
    unfold game_over_state
    rw [update_paddle]
    norm_num [paddle_walls, advance, process_input, setup, globals, SDL_KEYDOWN, SDL_QUIT,
      SDLK_k, SDLK_j, SDLK_ESCAPE, Int.tdiv]
  have hv : game_over_state.paddle.vel_x = -500 := by
    unfold game_over_state
    rw [update_paddle]
    norm_num [paddle_walls, advance, process_input, setup, globals, SDL_KEYDOWN, SDL_QUIT,
      SDLK_k, SDLK_j, SDLK_ESCAPE, Int.tdiv]
  have hw : game_over_state.paddle.width = 100 := by
    unfold game_over_state
    rw [update_paddle, paddle_walls_width]
    simp only [advance]
    rw [process_input_paddle_width]
    rfl
  refine ⟨?_, ?_, hx, hv, ?_, ?_⟩
  · exact ReachableWith.step 3 (by norm_num) (ReachableWith.input _ (ReachableWith.start true))
  · unfold game_over_state
    rw [update_game_over]
    unfold ball_at_floor_test
    rw [ball_top_wall_height, ball_vertical_walls_height]
    unfold ball_top_wall
    rw [ball_vertical_walls_y]
    simp only [advance]
    rw [process_input_ball]
    norm_num [setup, ball_vertical_walls_y]
  · rw [update_paddle]
    norm_num [paddle_walls, advance, hx, hv, hw]
  · rw [update_paddle]
    norm_num [paddle_walls, advance, hx, hv, hw]

/-- C4 (amended): in every state with `game_over` set that is reachable from
`setup` by `process_input` and `update` steps (of any `delta_time`), a further
`update` with any `delta_time` leaves every
field of the ball unchanged and leaves the paddle's `y`, `width`, `height` and
`vel_y` unchanged; the paddle's `x` and `vel_x` are unchanged too when the
paddle has `vel_x = 0` and touches neither side wall. -/
theorem update_after_game_over (W H : Int) (delta_time : ℚ) (s : State)
    (hr : ReachableWith (fun _ => True) W H s) (hg : s.game_over = true) :
    (update W H delta_time s).ball = s.ball ∧
    (update W H delta_time s).paddle.y = s.paddle.y ∧
    (update W H delta_time s).paddle.width = s.paddle.width ∧
    (update W H delta_time s).paddle.height = s.paddle.height ∧
    (update W H delta_time s).paddle.vel_y = s.paddle.vel_y ∧
    (s.paddle.vel_x = 0 → 0 < s.paddle.x → s.paddle.x + s.paddle.width < (W : ℚ) →
      (update W H delta_time s).paddle = s.paddle) := by
  have hrest := reachable_game_over_at_rest _ W H s hr hg
  obtain ⟨-, hvy, -⟩ := reachable_paddle_fixed _ W H s hr
  have hpy : (advance delta_time s).paddle.y = s.paddle.y := by
    simp [advance, hvy]
  refine ⟨?_, ?_, ?_, ?_, ?_, ?_⟩
  · rw [update_ball_collisions, advance_ball_at_rest delta_time s hrest.1 hrest.2.1]
    exact ball_collisions_at_rest W H _ _ hrest
  · rw [update_paddle, paddle_walls_y, hpy]
  · rw [update_paddle, paddle_walls_width]; rfl
  · rw [update_paddle, paddle_walls_height]; rfl
  · rw [update_paddle, paddle_walls_vel_y]; rfl
  · intro hv h0 h1
    have hp : (advance delta_time s).paddle = s.paddle := by
      apply game_object.ext <;> simp [advance, hv, hvy]
    rw [update_paddle, hp]
    unfold paddle_walls; dsimp only
    rw [if_neg (not_le.mpr h0), if_neg (not_le.mpr h1)]

/-- Witness of C4: the state after a three-second frame without input in an
800 by 600 window has `game_over` set and a resting paddle at 350. -/
theorem update_after_game_over_witness :
    ReachableWith (fun _ => True) 800 600 (update 800 600 3 (setup 800 600 (globals true))) ∧
    (update 800 600 3 (setup 800 600 (globals true))).game_over = true ∧
    (update 800 600 1 (update 800 600 3 (setup 800 600 (globals true)))).ball =
      (update 800 600 3 (setup 800 600 (globals true))).ball :=
  have hr : ReachableWith (fun _ => True) 800 600
      (update 800 600 3 (setup 800 600 (globals true))) :=
    reachable_any 800 600 _ (ReachableWith.step 3 (by norm_num) (ReachableWith.start true))
  have hg : (update 800 600 3 (setup 800 600 (globals true))).game_over = true := by
    rw [update_game_over]
    norm_num [ball_at_floor_test, ball_top_wall, ball_vertical_walls, advance, setup]
  ⟨hr, hg, (update_after_game_over 800 600 1 _ hr hg).1⟩

/-! ## Wall bounces and the sign of the velocity -/

/-- C5 fails as stated, in an 800 by 600 window with a tenth of a second per
frame: from `corner_state` the advance drives `ball.x` below 0 but the floor
test zeroes `vel_x`, so its sign is 0 and not the opposite of the sign of -300;
from `top_paddle_state` the advance drives `ball.y` below 0 but the paddle
test flips `vel_y` back, from -200 to -204. -/
theorem wall_bounce_sign_not_flipped :
    (corner_state.ball.width < ((800 : Int) : ℚ) ∧
      corner_state.ball.height < ((600 : Int) : ℚ) ∧
      (advance (1 / 10) corner_state).ball.x ≤ 0 ∧
      corner_state.ball.vel_x = -300 ∧
      (update 800 600 (1 / 10) corner_state).ball.vel_x = 0 ∧
      sign_of (update 800 600 (1 / 10) corner_state).ball.vel_x ≠
        - sign_of corner_state.ball.vel_x) ∧
    (top_paddle_state.ball.width < ((800 : Int) : ℚ) ∧
      top_paddle_state.ball.height < ((600 : Int) : ℚ) ∧
      (advance (1 / 10) top_paddle_state).ball.y ≤ 0 ∧
      top_paddle_state.ball.vel_y = -200 ∧
      (update 800 600 (1 / 10) top_paddle_state).ball.vel_y = -204 ∧
      sign_of (update 800 600 (1 / 10) top_paddle_state).ball.vel_y ≠
        - sign_of top_paddle_state.ball.vel_y) := by
  have h1 : (update 800 600 (1 / 10) corner_state).ball.vel_x = 0 := by
    norm_num [update, advance, ball_vertical_walls, ball_top_wall, ball_floor, ball_paddle,
      hits_paddle, corner_state]
  have h2 : (update 800 600 (1 / 10) top_paddle_state).ball.vel_y = -204 := by
    norm_num [update, advance, ball_vertical_walls, ball_top_wall, ball_floor, ball_paddle,
      hits_paddle, top_paddle_state]
  refine ⟨⟨?_, ?_, ?_, rfl, h1, ?_⟩, ⟨?_, ?_, ?_, rfl, h2, ?_⟩⟩
  · norm_num [corner_state]
  · norm_num [corner_state]
  · norm_num [advance, corner_state]
  · rw [h1]; norm_num [sign_of, corner_state]
  · norm_num [top_paddle_state]
  · norm_num [top_paddle_state]
  · norm_num [advance, top_paddle_state]
  · rw [h2]; norm_num [sign_of, top_paddle_state]

/-- C5 (amended): for every state with `ball.width < WINDOW_WIDTH` and
`ball.height < WINDOW_HEIGHT` and every `delta_time`: if the advance drives
`ball.x` to or below 0, or `ball.x + ball.width` to or past `WINDOW_WIDTH`, and
the ball's bottom edge stays above `WINDOW_HEIGHT` in that frame, then `vel_x`
after `update` has the opposite sign to `vel_x` before; if the advance drives
`ball.y` to or below 0 and the paddle test of lines 161-163 fails in that
frame, then `vel_y` after `update` has the opposite sign to `vel_y` before. -/
theorem wall_bounce_flips_sign (W H : Int) (delta_time : ℚ) (s : State)
    (hw : s.ball.width < (W : ℚ)) (hh : s.ball.height < (H : ℚ)) :
    ((advance delta_time s).ball.x ≤ 0 →
      (advance delta_time s).ball.y + (advance delta_time s).ball.height < (H : ℚ) →
      sign_of (update W H delta_time s).ball.vel_x = - sign_of s.ball.vel_x) ∧
    ((advance delta_time s).ball.x + (advance delta_time s).ball.width ≥ (W : ℚ) →
      (advance delta_time s).ball.y + (advance delta_time s).ball.height < (H : ℚ) →
      sign_of (update W H delta_time s).ball.vel_x = - sign_of s.ball.vel_x) ∧
    ((advance delta_time s).ball.y ≤ 0 →
      ¬ hits_paddle (advance delta_time s).paddle (ball_at_paddle_test W H delta_time s) →
      sign_of (update W H delta_time s).ball.vel_y = - sign_of s.ball.vel_y) := by
  have hwa : (advance delta_time s).ball.width < (W : ℚ) := hw
  have hha : (advance delta_time s).ball.height < (H : ℚ) := hh
  have hnf : (advance delta_time s).ball.y + (advance delta_time s).ball.height < (H : ℚ) →
      (ball_top_wall (ball_vertical_walls W (advance delta_time s).ball)).y +
        (ball_top_wall (ball_vertical_walls W (advance delta_time s).ball)).height
          < (H : ℚ) := by
    intro hb
    apply ball_top_wall_above_floor
    · rw [ball_vertical_walls_height]; exact hha
    · rw [ball_vertical_walls_y, ball_vertical_walls_height]; exact hb
  refine ⟨?_, ?_, ?_⟩
  · intro hx hb
    rw [update_ball, ball_paddle_vel_x_sign, ball_floor_none H _ (hnf hb), ball_top_wall_vel_x,
      ball_vertical_walls_left W _ hx hwa]
    exact sign_of_neg _
  · intro hx hb
    rw [update_ball, ball_paddle_vel_x_sign, ball_floor_none H _ (hnf hb), ball_top_wall_vel_x,
      ball_vertical_walls_right W _ hx hwa]
    exact sign_of_neg _
  · intro hy hp
    have hy1 : (ball_vertical_walls W (advance delta_time s).ball).y ≤ 0 := by
      rw [ball_vertical_walls_y]; exact hy
    have htop := ball_top_wall_hit _ hy1
    have hfl : (ball_top_wall (ball_vertical_walls W (advance delta_time s).ball)).y +
        (ball_top_wall (ball_vertical_walls W (advance delta_time s).ball)).height
          < (H : ℚ) := by
      rw [ball_top_wall_height, ball_vertical_walls_height, htop]
      dsimp only
      rw [zero_add]; exact hha
    unfold ball_at_paddle_test ball_at_floor_test at hp
    rw [update_ball, ball_paddle_miss _ _ hp, ball_floor_none H _ hfl, htop]
    dsimp only
    rw [ball_vertical_walls_vel_y]
    exact sign_of_neg _

/-- Witness of C5: from `left_wall_state` a frame of a tenth of a second
drives the ball past the left wall, and `vel_x` changes sign. -/
theorem wall_bounce_flips_sign_witness :
    left_wall_state.ball.width < ((800 : Int) : ℚ) ∧
    left_wall_state.ball.height < ((600 : Int) : ℚ) ∧
    (advance (1 / 10) left_wall_state).ball.x ≤ 0 ∧
    sign_of (update 800 600 (1 / 10) left_wall_state).ball.vel_x =
      - sign_of left_wall_state.ball.vel_x :=
  have hw : left_wall_state.ball.width < ((800 : Int) : ℚ) := by norm_num [left_wall_state]
  have hh : left_wall_state.ball.height < ((600 : Int) : ℚ) := by norm_num [left_wall_state]
  have hx : (advance (1 / 10) left_wall_state).ball.x ≤ 0 := by
    norm_num [advance, left_wall_state]
  ⟨hw, hh, hx,
    (wall_bounce_flips_sign 800 600 (1 / 10) left_wall_state hw hh).1 hx
      (by norm_num [advance, left_wall_state])⟩

/-! ## The paddle bounce -/

/-- C6: when, after the position advance, the ball touches no wall and the
paddle test of lines 161-163 holds, `update` yields `vel_y = -1.02 * vel_y` and
`vel_x = 1.02 * vel_x` of the state before. -/
theorem paddle_bounce_speed_up (W H : Int) (delta_time : ℚ) (s : State)
    (hx0 : 0 < (advance delta_time s).ball.x)
    (hx1 : (advance delta_time s).ball.x + (advance delta_time s).ball.width < (W : ℚ))
    (hy0 : 0 < (advance delta_time s).ball.y)
    (hy1 : (advance delta_time s).ball.y + (advance delta_time s).ball.height < (H : ℚ))
    (hp1 : (advance delta_time s).ball.y + (advance delta_time s).ball.height
      ≥ (advance delta_time s).paddle.y)
    (hp2 : (advance delta_time s).ball.x + (advance delta_time s).ball.width
      ≥ (advance delta_time s).paddle.x)
    (hp3 : (advance delta_time s).ball.x
      ≤ (advance delta_time s).paddle.x + (advance delta_time s).paddle.width) :
    (update W H delta_time s).ball.vel_y = -1.02 * s.ball.vel_y ∧
    (update W H delta_time s).ball.vel_x = 1.02 * s.ball.vel_x := by
  have hp : hits_paddle (advance delta_time s).paddle (advance delta_time s).ball :=
    ⟨hp1, hp2, hp3⟩
  rw [update_ball, ball_vertical_walls_none W _ hx0 hx1, ball_top_wall_none _ hy0,
    ball_floor_none H _ hy1, ball_paddle_hit _ _ hp]
  simp only [advance]
  constructor <;> norm_num <;> ring

/-- Witness of C6: velocity (100, 50) in (`vel_y`, `vel_x`) becomes
(-102, 51). -/
theorem paddle_bounce_speed_up_witness :
    paddle_hit_state.ball.vel_y = 100 ∧ paddle_hit_state.ball.vel_x = 50 ∧
    (update 800 600 (1 / 10) paddle_hit_state).ball.vel_y = -102 ∧
    (update 800 600 (1 / 10) paddle_hit_state).ball.vel_x = 51 :=
  have h := paddle_bounce_speed_up 800 600 (1 / 10) paddle_hit_state
    (by norm_num [advance, paddle_hit_state]) (by norm_num [advance, paddle_hit_state])
    (by norm_num [advance, paddle_hit_state]) (by norm_num [advance, paddle_hit_state])
    (by norm_num [advance, paddle_hit_state]) (by norm_num [advance, paddle_hit_state])
    (by norm_num [advance, paddle_hit_state])
  ⟨rfl, rfl, by rw [h.1]; norm_num [paddle_hit_state],
    by rw [h.2]; norm_num [paddle_hit_state]⟩

/-! ## The paddle against the side walls -/

/-- C7: for every state with `0 < paddle.width < WINDOW_WIDTH` and every
`delta_time`: if the paddle's `x` after the position advance is at or below 0,
then after `update` `paddle.x = 0` and `paddle.vel_x = 500`; if its
`x + width` after the advance is at or past `WINDOW_WIDTH`, then after
`update` `paddle.x = WINDOW_WIDTH - paddle.width` and `paddle.vel_x = -500`. -/
theorem paddle_wall_clamp (W H : Int) (delta_time : ℚ) (s : State)
    (_hw0 : 0 < s.paddle.width) (hw : s.paddle.width < (W : ℚ)) :
    ((advance delta_time s).paddle.x ≤ 0 →
      (update W H delta_time s).paddle.x = 0 ∧
      (update W H delta_time s).paddle.vel_x = 500) ∧
    ((advance delta_time s).paddle.x + (advance delta_time s).paddle.width ≥ (W : ℚ) →
      (update W H delta_time s).paddle.x = (W : ℚ) - s.paddle.width ∧
      (update W H delta_time s).paddle.vel_x = -500) := by
  have hwa : (advance delta_time s).paddle.width = s.paddle.width := rfl
  constructor
  · intro hx
    rw [update_paddle]
    unfold paddle_walls; dsimp only
    rw [if_pos hx]; dsimp only
    rw [if_neg (by rw [zero_add, hwa]; exact not_le.mpr hw)]
    exact ⟨rfl, rfl⟩
  · intro hx
    have h0 : ¬ (advance delta_time s).paddle.x ≤ 0 := by
      intro h; rw [hwa] at hx; linarith
    rw [update_paddle]
    unfold paddle_walls; dsimp only
    rw [if_neg h0, if_pos hx]
    exact ⟨rfl, rfl⟩

/-- Witness of C7: `paddle.x = -5` with `paddle.vel_x = 0` gives `paddle.x = 0`
and `paddle.vel_x = 500` after one `update`. -/
theorem paddle_wall_clamp_witness :
    paddle_outside_state.paddle.x = -5 ∧ paddle_outside_state.paddle.vel_x = 0 ∧
    (update 800 600 (1 / 60) paddle_outside_state).paddle.x = 0 ∧
    (update 800 600 (1 / 60) paddle_outside_state).paddle.vel_x = 500 :=
  ⟨rfl, rfl,
    (paddle_wall_clamp 800 600 (1 / 60) paddle_outside_state
      (by norm_num [paddle_outside_state]) (by norm_num [paddle_outside_state])).1
      (by norm_num [advance, paddle_outside_state])⟩

/-! ## The contract of `process_input` -/

/-- C8: a quit event clears the running flag; a key-down of Escape clears it;
a key-down of `j` subtracts 200 from `paddle.vel_x` and a key-down of `k` adds
200; a key-up of `j` or `k` sets `paddle.vel_x` to 0; nothing else of the state
changes in these cases, and every other event leaves the whole state
unchanged. -/
theorem process_input_contract (ev : SDL_Event) (s : State) :
    (ev.type = SDL_QUIT → process_input ev s = { s with game_is_running := false }) ∧
    (ev.type = SDL_KEYDOWN → ev.sym = SDLK_ESCAPE →
      process_input ev s = { s with game_is_running := false }) ∧
    (ev.type = SDL_KEYDOWN → ev.sym = SDLK_j →
      process_input ev s =
        { s with paddle := { s.paddle with vel_x := s.paddle.vel_x - 200 } }) ∧
    (ev.type = SDL_KEYDOWN → ev.sym = SDLK_k →
      process_input ev s =
        { s with paddle := { s.paddle with vel_x := s.paddle.vel_x + 200 } }) ∧
    (ev.type = SDL_KEYUP → ev.sym = SDLK_j ∨ ev.sym = SDLK_k →
      process_input ev s = { s with paddle := { s.paddle with vel_x := 0 } }) ∧
    ((ev.type ≠ SDL_QUIT ∧ ev.type ≠ SDL_KEYDOWN ∧ ev.type ≠ SDL_KEYUP) ∨
      (ev.type = SDL_KEYDOWN ∧ ev.sym ≠ SDLK_ESCAPE ∧ ev.sym ≠ SDLK_j ∧ ev.sym ≠ SDLK_k) ∨
      (ev.type = SDL_KEYUP ∧ ev.sym ≠ SDLK_j ∧ ev.sym ≠ SDLK_k) →
      process_input ev s = s) := by
  refine ⟨?_, ?_, ?_, ?_, ?_, ?_⟩
  · intro ht
    simp [process_input, ht]
  · intro ht hs
    simp [process_input, ht, hs, SDL_KEYDOWN, SDL_QUIT, SDLK_ESCAPE, SDLK_j, SDLK_k]
  · intro ht hs
    simp [process_input, ht, hs, SDL_KEYDOWN, SDL_QUIT, SDLK_ESCAPE, SDLK_j, SDLK_k,
      sub_eq_add_neg]
  · intro ht hs
    simp [process_input, ht, hs, SDL_KEYDOWN, SDL_QUIT, SDLK_ESCAPE, SDLK_j, SDLK_k]
  · intro ht hs
    rcases hs with hs | hs <;>
      simp [process_input, ht, hs, SDL_KEYDOWN, SDL_KEYUP, SDL_QUIT, SDLK_j, SDLK_k]
  · intro h
    rcases h with ⟨h1, h2, h3⟩ | ⟨h1, h2, h3, h4⟩ | ⟨h1, h2, h3⟩
    · simp [process_input, h1, h2, h3]
    · simp [process_input, h1, h2, h3, h4, SDL_KEYDOWN, SDL_QUIT]
    · simp [process_input, h1, h2, h3, SDL_KEYDOWN, SDL_KEYUP, SDL_QUIT]

/-- Witness of C8: a key-down of `j` on the state of `setup` lowers
`paddle.vel_x` from 0 by 200 and changes nothing else. -/
theorem process_input_contract_witness :
    process_input ⟨SDL_KEYDOWN, SDLK_j⟩ (setup 800 600 (globals true)) =
      { setup 800 600 (globals true) with
        paddle := { (setup 800 600 (globals true)).paddle with
          vel_x := (setup 800 600 (globals true)).paddle.vel_x - 200 } } :=
  (process_input_contract ⟨SDL_KEYDOWN, SDLK_j⟩ (setup 800 600 (globals true))).2.2.1 rfl rfl

/-! ## The floor -/

/-- C10: for every state and every `delta_time`, if after the position advance
and the top-wall clamp the ball's bottom edge `ball.y + ball.height` is at or
past `WINDOW_HEIGHT`, then after `update` `ball.y = WINDOW_HEIGHT - ball.height`,
`ball.vel_x = 0`, `ball.vel_y = 0` and `game_over` is true, whatever the
vertical-wall tests and the paddle test did in that frame. -/
theorem floor_hit (W H : Int) (delta_time : ℚ) (s : State)
    (hf : (ball_at_floor_test W delta_time s).y + (ball_at_floor_test W delta_time s).height
      ≥ (H : ℚ)) :
    (update W H delta_time s).ball.y = (H : ℚ) - (update W H delta_time s).ball.height ∧
    (update W H delta_time s).ball.height = s.ball.height ∧
    (update W H delta_time s).ball.vel_x = 0 ∧
    (update W H delta_time s).ball.vel_y = 0 ∧
    (update W H delta_time s).game_over = true := by
  have hhit := ball_floor_fires H _ hf
  unfold ball_at_floor_test at hhit hf
  refine ⟨?_, ?_, ?_, ?_, ?_⟩
  · rw [update_ball, ball_paddle_y, ball_paddle_height, ball_floor_height, hhit]
  · rw [update_ball, ball_paddle_height, ball_floor_height, ball_top_wall_height,
      ball_vertical_walls_height]
    rfl
  · rw [update_ball]
    apply ball_paddle_vel_x_zero
    rw [hhit]
  · rw [update_ball]
    apply ball_paddle_vel_y_zero
    rw [hhit]
  · rw [update_game_over]
    unfold ball_at_floor_test
    rw [if_pos hf]

/-- Witness of C10: from `floor_over_paddle_state` a frame of a tenth of a
second puts the ball's bottom edge at 605; the ball ends at 585 without
velocity, `game_over` is set, and the paddle test held in that frame. -/
theorem floor_hit_witness :
    hits_paddle (advance (1 / 10) floor_over_paddle_state).paddle
      (ball_at_paddle_test 800 600 (1 / 10) floor_over_paddle_state) ∧
    (update 800 600 (1 / 10) floor_over_paddle_state).ball.y = 585 ∧
    (update 800 600 (1 / 10) floor_over_paddle_state).ball.vel_x = 0 ∧
    (update 800 600 (1 / 10) floor_over_paddle_state).ball.vel_y = 0 ∧
    (update 800 600 (1 / 10) floor_over_paddle_state).game_over = true :=
  have h := floor_hit 800 600 (1 / 10) floor_over_paddle_state
    (by norm_num [ball_at_floor_test, ball_top_wall, ball_vertical_walls, advance,
      floor_over_paddle_state])
  ⟨by norm_num [hits_paddle, ball_at_paddle_test, ball_at_floor_test, ball_floor,
      ball_top_wall, ball_vertical_walls, advance, floor_over_paddle_state],
    by rw [h.1, h.2.1]; norm_num [floor_over_paddle_state], h.2.2.1, h.2.2.2.1, h.2.2.2.2⟩

/-! ## Rounding to binary32 -/

theorem round_even_error (r : ℚ) : |((round_even r : Int) : ℚ) - r| ≤ 1 / 2 := by
  have h0 := Int.floor_le r
  have h1 := Int.lt_floor_add_one r
  unfold round_even
  split_ifs with ha hb hc
  · rw [abs_le]; constructor <;> linarith
  · rw [abs_le]; push_cast; constructor <;> linarith
  · rw [abs_le]; constructor <;> linarith
  · rw [abs_le]; push_cast; constructor <;> linarith

theorem round_even_eq (r : ℚ) (m : Int) (h : |r - (m : ℚ)| < 1 / 2) : round_even r = m := by
  rw [abs_lt] at h
  have hf : ⌊r⌋ = m ∨ ⌊r⌋ = m - 1 := by
    have h1 : m - 1 ≤ ⌊r⌋ := by
      rw [Int.le_floor]; push_cast; linarith
    have h2 : ⌊r⌋ < m + 1 := by
      rw [Int.floor_lt]; push_cast; linarith
    omega
  unfold round_even
  rcases hf with hf | hf
  · rw [hf, if_pos (by linarith)]
  · have hfq : (⌊r⌋ : ℚ) = (m : ℚ) - 1 := by rw [hf]; push_cast; ring
    rw [if_neg (by rw [hfq]; linarith), if_pos (by rw [hfq]; linarith), hf]
    ring

theorem ulp_exponent_of_bounds (prec : Nat) (emin E : Int) (q : ℚ) (hE : emin ≤ E)
    (h0 : (2 : ℚ) ^ E ≤ |q|) (h1 : |q| < (2 : ℚ) ^ (E + 1)) :
    ulp_exponent prec emin q = E - ((prec : Int) - 1) := by
  have hpos : 0 < |q| := lt_of_lt_of_le (zpow_pos (by norm_num) E) h0
  have hlog : Int.log 2 |q| = E := by
    apply le_antisymm
    · have := (Int.lt_zpow_iff_log_lt (R := ℚ) (b := 2) (by norm_num) hpos (x := E + 1)).mp
        (by simpa using h1)
      omega
    · exact (Int.zpow_le_iff_le_log (R := ℚ) (b := 2) (by norm_num) hpos (x := E)).mp
        (by simpa using h0)
  unfold ulp_exponent
  rw [hlog, max_eq_left hE]

theorem ulp_exponent_le (prec : Nat) (emin E : Int) (q : ℚ) (hE : emin ≤ E) (hq : q ≠ 0)
    (h1 : |q| < (2 : ℚ) ^ (E + 1)) :
    ulp_exponent prec emin q ≤ E - ((prec : Int) - 1) := by
  have hpos : 0 < |q| := abs_pos.mpr hq
  have hlog : Int.log 2 |q| ≤ E := by
    have := (Int.lt_zpow_iff_log_lt (R := ℚ) (b := 2) (by norm_num) hpos (x := E + 1)).mp
      (by simpa using h1)
    omega
  unfold ulp_exponent
  have := max_le hlog hE
  omega

/-- The rounding error is at most half a unit in the last place. -/
theorem round_to_error (prec : Nat) (emin E : Int) (q : ℚ) (hE : emin ≤ E)
    (h1 : |q| < (2 : ℚ) ^ (E + 1)) :
    |round_to prec emin q - q| ≤ (2 : ℚ) ^ (E - (prec : Int)) := by
  unfold round_to
  split_ifs with hq
  · rw [hq]; simp; positivity
  · have hu : (0 : ℚ) < (2 : ℚ) ^ ulp_exponent prec emin q := zpow_pos (by norm_num) _
    have herr := round_even_error (q / (2 : ℚ) ^ ulp_exponent prec emin q)
    have hle := ulp_exponent_le prec emin E q hE hq h1
    have key : |(round_even (q / (2 : ℚ) ^ ulp_exponent prec emin q) : ℚ)
        * (2 : ℚ) ^ ulp_exponent prec emin q - q| ≤ (2 : ℚ) ^ ulp_exponent prec emin q / 2 := by
      have : (round_even (q / (2 : ℚ) ^ ulp_exponent prec emin q) : ℚ)
          * (2 : ℚ) ^ ulp_exponent prec emin q - q =
          ((round_even (q / (2 : ℚ) ^ ulp_exponent prec emin q) : ℚ)
            - q / (2 : ℚ) ^ ulp_exponent prec emin q) * (2 : ℚ) ^ ulp_exponent prec emin q := by
        field_simp
      rw [this, abs_mul, abs_of_pos hu]
      calc _ ≤ 1 / 2 * (2 : ℚ) ^ ulp_exponent prec emin q :=
            mul_le_mul_of_nonneg_right herr hu.le
        _ = _ := by ring
    refine le_trans key ?_
    have h2 : (2 : ℚ) ^ ulp_exponent prec emin q / 2 = (2 : ℚ) ^ (ulp_exponent prec emin q - 1) := by
      rw [zpow_sub_one₀ (by norm_num)]; rfl
    rw [h2]
    apply zpow_le_zpow_right₀ (by norm_num)
    omega

/-- Evaluation of a rounding from the binade of `q` and the nearest
integer multiple of the last place. -/
theorem round_to_eval (prec : Nat) (emin E : Int) (q : ℚ) (m : Int) (hE : emin ≤ E)
    (h0 : (2 : ℚ) ^ E ≤ |q|) (h1 : |q| < (2 : ℚ) ^ (E + 1))
    (hm : |q / (2 : ℚ) ^ (E - ((prec : Int) - 1)) - (m : ℚ)| < 1 / 2) :
    round_to prec emin q = (m : ℚ) * (2 : ℚ) ^ (E - ((prec : Int) - 1)) := by
  have hq : q ≠ 0 := by
    intro h; rw [h, abs_zero] at h0
    exact absurd h0 (not_le.mpr (zpow_pos (by norm_num) E))
  unfold round_to
  rw [if_neg hq, ulp_exponent_of_bounds prec emin E q hE h0 h1, round_even_eq _ m hm]

theorem fl32_zero : fl32 0 = 0 := by
  unfold fl32 round_to; rw [if_pos rfl]

/-- Below 8192 a rounding to binary32 moves a number by at most 1/4096. -/
theorem fl32_error_small (q : ℚ) (h : |q| < 8192) : |fl32 q - q| ≤ 1 / 4096 := by
  have := round_to_error 24 (-126) 12 q (by norm_num) (by norm_num; exact h)
  unfold fl32
  norm_num at this
  exact this

/-- Integers below `2 ^ 24` in absolute value are binary32 numbers. -/
theorem fl32_intCast (k : Int) (h : |k| < 2 ^ 24) : fl32 (k : ℚ) = k := by
  by_cases hk : k = 0
  · rw [hk]; simp [fl32_zero]
  have hq : (k : ℚ) ≠ 0 := by exact_mod_cast hk
  have hpos : 0 < |(k : ℚ)| := abs_pos.mpr hq
  have h1le : (1 : ℚ) ≤ |(k : ℚ)| := by
    have : (1 : Int) ≤ |k| := Int.one_le_abs hk
    exact_mod_cast this
  have hlt : |(k : ℚ)| < (2 : ℚ) ^ (24 : Int) := by
    have h16 : |k| < 16777216 := by norm_num at h; exact h
    have hc : ((|k| : Int) : ℚ) < ((16777216 : Int) : ℚ) := Int.cast_lt.mpr h16
    rw [Int.cast_abs] at hc
    norm_num at hc ⊢
    exact hc
  have hE0 : 0 ≤ Int.log 2 |(k : ℚ)| :=
    (Int.zpow_le_iff_le_log (R := ℚ) (b := 2) (by norm_num) hpos (x := 0)).mp (by simpa using h1le)
  have hE1 : Int.log 2 |(k : ℚ)| < 24 :=
    (Int.lt_zpow_iff_log_lt (R := ℚ) (b := 2) (by norm_num) hpos (x := 24)).mp
      (by simpa using hlt)
  have hb0 : (2 : ℚ) ^ Int.log 2 |(k : ℚ)| ≤ |(k : ℚ)| := by
    simpa using Int.zpow_log_le_self (R := ℚ) (b := 2) (by norm_num) hpos
  have hb1 : |(k : ℚ)| < (2 : ℚ) ^ (Int.log 2 |(k : ℚ)| + 1) := by
    simpa using Int.lt_zpow_succ_log_self (R := ℚ) (b := 2) (by norm_num) |(k : ℚ)|
  obtain ⟨n, hn⟩ : ∃ n : Nat, Int.log 2 |(k : ℚ)| - (((24 : Nat) : Int) - 1) = -(n : Int) :=
    ⟨(23 - Int.log 2 |(k : ℚ)|).toNat, by push_cast; omega⟩
  have hpow : (2 : ℚ) ^ (Int.log 2 |(k : ℚ)| - (((24 : Nat) : Int) - 1)) = ((2 : ℚ) ^ n)⁻¹ := by
    rw [hn, zpow_neg, zpow_natCast]
  have h2n : ((2 : ℚ) ^ n) ≠ 0 := pow_ne_zero _ (by norm_num)
  unfold fl32
  rw [round_to_eval 24 (-126) _ (k : ℚ) (k * 2 ^ n) (by omega) hb0 hb1
    (by rw [hpow]; push_cast; simp)]
  rw [hpow]; push_cast; field_simp

/-- The binary32 number nearest to 1/60. -/
theorem fl32_sixtieth : fl32 (1 / 60) = 8947849 / 536870912 := by
  unfold fl32
  rw [round_to_eval 24 (-126) (-6) (1 / 60) 8947849 (by norm_num)
    (by norm_num [abs_of_pos]) (by norm_num [abs_of_pos])
    (by norm_num [abs_lt])]
  norm_num

/-- The horizontal step of the ball: 300 times the frame time, rounded. -/
theorem fl32_step_x : fl32 (300 * fl32 (1 / 60)) = 10485761 / 2097152 := by
  rw [fl32_sixtieth]
  unfold fl32
  rw [round_to_eval 24 (-126) 2 _ 10485761 (by norm_num)
    (by norm_num [abs_of_pos]) (by norm_num [abs_of_pos])
    (by norm_num [abs_lt])]
  norm_num

/-- The vertical step of the ball: 200 times the frame time, rounded. -/
theorem fl32_step_y : fl32 (200 * fl32 (1 / 60)) = 6990507 / 2097152 := by
  rw [fl32_sixtieth]
  unfold fl32
  rw [round_to_eval 24 (-126) 1 _ 13981014 (by norm_num)
    (by norm_num [abs_of_pos]) (by norm_num [abs_of_pos])
    (by norm_num [abs_lt])]
  norm_num

theorem fl32_step_x_exact : fl32 (10485761 / 2097152) = 10485761 / 2097152 := by
  unfold fl32
  rw [round_to_eval 24 (-126) 2 _ 10485761 (by norm_num)
    (by norm_num [abs_of_pos]) (by norm_num [abs_of_pos])
    (by norm_num [abs_lt])]
  norm_num

theorem fl32_step_y_exact : fl32 (6990507 / 2097152) = 6990507 / 2097152 := by
  unfold fl32
  rw [round_to_eval 24 (-126) 1 _ 13981014 (by norm_num)
    (by norm_num [abs_of_pos]) (by norm_num [abs_of_pos])
    (by norm_num [abs_lt])]
  norm_num

/-! ## Frames without any collision, in binary32 -/

/-- When after the rounded position advance no test of `update` succeeds,
`update32` is the rounded position advance alone. -/
theorem update32_free_flight (W H : Int) (dt : ℚ) (s : State)
    (hx0 : 0 < (advance32 dt s).ball.x)
    (hx1 : fl32 ((advance32 dt s).ball.x + (advance32 dt s).ball.width) < fl32 (W : ℚ))
    (hy0 : 0 < (advance32 dt s).ball.y)
    (hy1 : fl32 ((advance32 dt s).ball.y + (advance32 dt s).ball.height) < fl32 (H : ℚ))
    (hp : fl32 ((advance32 dt s).ball.y + (advance32 dt s).ball.height)
      < (advance32 dt s).paddle.y)
    (hq0 : 0 < (advance32 dt s).paddle.x)
    (hq1 : fl32 ((advance32 dt s).paddle.x + (advance32 dt s).paddle.width) < fl32 (W : ℚ)) :
    update32 W H dt s = advance32 dt s := by
  have h1 : ball_vertical_walls32 W (advance32 dt s).ball = (advance32 dt s).ball := by
    unfold ball_vertical_walls32; dsimp only
    rw [if_neg (not_le.mpr hx0), if_neg (not_le.mpr hx1)]
  have h2 : ball_top_wall32 (advance32 dt s).ball = (advance32 dt s).ball := by
    unfold ball_top_wall32; rw [if_neg (not_le.mpr hy0)]
  have h3 : ball_floor32 H (advance32 dt s).ball = (advance32 dt s).ball := by
    unfold ball_floor32; rw [if_neg (not_le.mpr hy1)]
  have h4 : ball_paddle32 (advance32 dt s).paddle (advance32 dt s).ball =
      (advance32 dt s).ball := by
    unfold ball_paddle32
    rw [if_neg]
    intro h
    exact absurd h.1 (not_le.mpr hp)
  have h5 : paddle_walls32 W (advance32 dt s).paddle = (advance32 dt s).paddle := by
    unfold paddle_walls32; dsimp only
    rw [if_neg (not_le.mpr hq0), if_neg (not_le.mpr hq1)]
  unfold update32; dsimp only
  rw [h1, h2, h3, h4, h5, if_neg (not_le.mpr hy1)]

/-- One frame of the trace: from a state within tolerance of the `k`-th
point, no test of `update` succeeds and the advanced state is within tolerance
of the next point. -/
theorem near_golden_frame (W H : Int) (window_ok : Bool) (k : Nat) (s : State)
    (heven : 2 ∣ W) (hW : 100 < W) (hW4 : W ≤ 4096) (hH4 : H ≤ 4096)
    (hx : 5 * ((k + 1 : Nat) : ℚ) + 15 < (W : ℚ))
    (hy : 10 * ((k + 1 : Nat) : ℚ) / 3 + 15 < (H : ℚ) - 40)
    (hs : near_golden W H window_ok k s) :
    update32 W H (fl32 (1 / 60)) s = advance32 (fl32 (1 / 60)) s ∧
    near_golden W H window_ok (k + 1) (advance32 (fl32 (1 / 60)) s) := by
  obtain ⟨hr, hg, hbw, hbh, hvx, hvy, hx0, hy0, hp⟩ := hs
  -- integer margins
  have hxi : 5 * ((k : ℚ) + 1) + 16 ≤ (W : ℚ) := by
    have h1 : (5 * ((k : Int) + 1) + 15 : Int) < W := by
      have : ((5 * ((k : Int) + 1) + 15 : Int) : ℚ) < (W : ℚ) := by push_cast at hx ⊢; exact hx
      exact_mod_cast this
    have h2 : (5 * ((k : Int) + 1) + 16 : Int) ≤ W := by omega
    have : ((5 * ((k : Int) + 1) + 16 : Int) : ℚ) ≤ (W : ℚ) := Int.cast_le.mpr h2
    push_cast at this; exact this
  have hyi : 10 * ((k : ℚ) + 1) + 166 ≤ 3 * (H : ℚ) := by
    have h1 : (10 * ((k : Int) + 1) + 165 : Int) < 3 * H := by
      have : ((10 * ((k : Int) + 1) + 165 : Int) : ℚ) < ((3 * H : Int) : ℚ) := by
        push_cast at hy ⊢; linarith
      exact_mod_cast this
    have h2 : (10 * ((k : Int) + 1) + 166 : Int) ≤ 3 * H := by omega
    have : ((10 * ((k : Int) + 1) + 166 : Int) : ℚ) ≤ ((3 * H : Int) : ℚ) := Int.cast_le.mpr h2
    push_cast at this; exact this
  have hk0 : (0 : ℚ) ≤ (k : ℚ) := Nat.cast_nonneg k
  have hWq : (W : ℚ) ≤ 4096 := by exact_mod_cast hW4
  have hHq : (H : ℚ) ≤ 4096 := by exact_mod_cast hH4
  have hW1 : (100 : ℚ) < (W : ℚ) := by exact_mod_cast hW
  rw [abs_le] at hx0 hy0
  -- window sizes and paddle coordinates are binary32 numbers
  have hfW : fl32 (W : ℚ) = (W : ℚ) := fl32_intCast W (by rw [abs_lt]; constructor <;> omega)
  have hH0 : 55 < H := by
    have : ((55 : Int) : ℚ) < (H : ℚ) := by push_cast; linarith
    exact_mod_cast this
  have hfH : fl32 (H : ℚ) = (H : ℚ) := fl32_intCast H (by rw [abs_lt]; constructor <;> omega)
  have hpx : fl32 ((W : ℚ) / 2 - 50) = (W : ℚ) / 2 - 50 := by
    obtain ⟨j, rfl⟩ := heven
    have : ((2 * j : Int) : ℚ) / 2 - 50 = ((j - 50 : Int) : ℚ) := by push_cast; ring
    rw [this]
    exact fl32_intCast _ (by rw [abs_lt]; constructor <;> omega)
  have hpxw : fl32 ((W : ℚ) / 2 - 50 + 100) = (W : ℚ) / 2 - 50 + 100 := by
    obtain ⟨j, rfl⟩ := heven
    have : ((2 * j : Int) : ℚ) / 2 - 50 + 100 = ((j + 50 : Int) : ℚ) := by push_cast; ring
    rw [this]
    exact fl32_intCast _ (by rw [abs_lt]; constructor <;> omega)
  have hpy : fl32 ((H : ℚ) - 40) = (H : ℚ) - 40 := by
    have : (H : ℚ) - 40 = ((H - 40 : Int) : ℚ) := by push_cast; ring
    rw [this]
    exact fl32_intCast _ (by rw [abs_lt]; constructor <;> omega)
  -- the advanced state
  have hax : (advance32 (fl32 (1 / 60)) s).ball.x = fl32 (s.ball.x + 10485761 / 2097152) := by
    simp only [advance32]; rw [hvx, fl32_step_x]
  have hay : (advance32 (fl32 (1 / 60)) s).ball.y = fl32 (s.ball.y + 6990507 / 2097152) := by
    simp only [advance32]; rw [hvy, fl32_step_y]
  have haw : (advance32 (fl32 (1 / 60)) s).ball.width = 15 := hbw
  have hah : (advance32 (fl32 (1 / 60)) s).ball.height = 15 := hbh
  have hap : (advance32 (fl32 (1 / 60)) s).paddle =
      { x := (W : ℚ) / 2 - 50, y := (H : ℚ) - 40, width := 100, height := 20,
        vel_x := 0, vel_y := 0 } := by
    simp only [advance32]; rw [hp]; dsimp only
    rw [zero_mul, fl32_zero, add_zero, add_zero, hpx, hpy]
  have hex := fl32_error_small (s.ball.x + 10485761 / 2097152)
    (by rw [abs_lt]; constructor <;> linarith)
  have hey := fl32_error_small (s.ball.y + 6990507 / 2097152)
    (by rw [abs_lt]; constructor <;> linarith)
  rw [← hax, abs_le] at hex
  rw [← hay, abs_le] at hey
  have hex2 := fl32_error_small ((advance32 (fl32 (1 / 60)) s).ball.x + 15)
    (by rw [abs_lt]; constructor <;> linarith)
  have hey2 := fl32_error_small ((advance32 (fl32 (1 / 60)) s).ball.y + 15)
    (by rw [abs_lt]; constructor <;> linarith)
  rw [abs_le] at hex2 hey2
  constructor
  · apply update32_free_flight
    · linarith
    · rw [haw, hfW]; linarith
    · linarith
    · rw [hah, hfH]; linarith
    · rw [hah, hap]; dsimp only; linarith
    · rw [hap]; dsimp only; linarith
    · rw [hap]; dsimp only; rw [hpxw, hfW]; linarith
  · refine ⟨hr, hg, hbw, hbh, hvx, hvy, ?_, ?_, hap⟩
    · rw [abs_le]; push_cast; constructor <;> linarith
    · rw [abs_le]; push_cast; constructor <;> linarith

/-- The state of `setup32` is the state of `setup` when the window sizes are
binary32 integers, and it is the first point of the trace. -/
theorem near_golden_setup32 (W H : Int) (window_ok : Bool)
    (heven : 2 ∣ W) (hW : 100 < W) (hW4 : W ≤ 4096) (hH : 55 < H) (hH4 : H ≤ 4096) :
    near_golden W H window_ok 0 (setup32 W H (globals window_ok)) := by
  have h50 : fl32 ((100 : ℚ) / 2) = 50 := by
    have : ((100 : ℚ) / 2) = ((50 : Int) : ℚ) := by norm_num
    rw [this, fl32_intCast 50 (by norm_num)]; norm_num
  have hpx : fl32 (fl32 ((Int.tdiv W 2 : Int) : ℚ) - fl32 ((100 : ℚ) / 2)) = (W : ℚ) / 2 - 50 := by
    rw [h50, ← tdiv_two_cast W heven]
    obtain ⟨j, rfl⟩ := heven
    rw [Int.mul_tdiv_cancel_left j (by norm_num), fl32_intCast j (by rw [abs_lt]; constructor <;> omega)]
    have : (j : ℚ) - 50 = ((j - 50 : Int) : ℚ) := by push_cast; ring
    rw [this]
    exact fl32_intCast _ (by rw [abs_lt]; constructor <;> omega)
  have hpy : fl32 ((H - 40 : Int) : ℚ) = (H : ℚ) - 40 := by
    rw [fl32_intCast _ (by rw [abs_lt]; constructor <;> omega)]; push_cast; ring
  refine ⟨rfl, rfl, rfl, rfl, rfl, rfl, ?_, ?_, ?_⟩
  · simp [setup32]
  · simp [setup32]
  · simp only [setup32]; rw [hpx, hpy]

/-- Every point of the trace is within tolerance. -/
theorem near_golden_reached (W H : Int) (window_ok : Bool) (n : Nat)
    (heven : 2 ∣ W) (hW : 100 < W) (hW4 : W ≤ 4096) (hH4 : H ≤ 4096)
    (hx : 5 * (n : ℚ) + 15 < (W : ℚ)) (hy : 10 * (n : ℚ) / 3 + 15 < (H : ℚ) - 40) :
    near_golden W H window_ok n
      (update32_n W H (fl32 (1 / 60)) n (setup32 W H (globals window_ok))) := by
  induction n with
  | zero =>
    have hH0 : 55 < H := by
      have : ((55 : Int) : ℚ) < (H : ℚ) := by push_cast at hy ⊢; linarith
      exact_mod_cast this
    exact near_golden_setup32 W H window_ok heven hW hW4 hH0 hH4
  | succ k ih =>
    have hk0 : (0 : ℚ) ≤ (k : ℚ) := Nat.cast_nonneg k
    have hprev := ih (by push_cast at hx; linarith) (by push_cast at hy; linarith)
    have hstep := near_golden_frame W H window_ok k _ heven hW hW4 hH4 hx hy hprev
    show near_golden W H window_ok (k + 1)
      (update32 W H (fl32 (1 / 60))
        (update32_n W H (fl32 (1 / 60)) k (setup32 W H (globals window_ok))))
    rw [hstep.1]
    exact hstep.2

/-! ## The golden trace -/

/-- C9 fails as stated, in an 800 by 600 window: with `delta_time` the
binary32 number nearest to 1/60 (1/60 itself is no `float`), one `update`
from the state of `setup` leaves `ball.x = 10485761/2097152`, about
5.00000048, and `ball.y = 6990507/2097152`, about 3.33333349, and neither is
the accumulated value `5 n` or `10 n / 3` for `n = 1`. -/
theorem golden_trace_not_exact :
    (2 : Int) ∣ 800 ∧ (100 : Int) < 800 ∧
    5 * ((1 : Nat) : ℚ) + 15 < ((800 : Int) : ℚ) ∧
    10 * ((1 : Nat) : ℚ) / 3 + 15 < ((600 : Int) : ℚ) - 40 ∧
    (update32_n 800 600 (fl32 (1 / 60)) 1 (setup32 800 600 (globals true))).ball.x
      = 10485761 / 2097152 ∧
    (update32_n 800 600 (fl32 (1 / 60)) 1 (setup32 800 600 (globals true))).ball.y
      = 6990507 / 2097152 ∧
    (update32_n 800 600 (fl32 (1 / 60)) 1 (setup32 800 600 (globals true))).ball.x
      ≠ 5 * ((1 : Nat) : ℚ) ∧
    (update32_n 800 600 (fl32 (1 / 60)) 1 (setup32 800 600 (globals true))).ball.y
      ≠ 10 * ((1 : Nat) : ℚ) / 3 := by
  have h0 := near_golden_setup32 800 600 true ⟨400, rfl⟩ (by decide) (by decide) (by decide)
    (by decide)
  have hstep := near_golden_frame 800 600 true 0 _ ⟨400, rfl⟩ (by decide) (by decide)
    (by decide) (by norm_num) (by norm_num) h0
  have hupd : update32_n 800 600 (fl32 (1 / 60)) 1 (setup32 800 600 (globals true)) =
      advance32 (fl32 (1 / 60)) (setup32 800 600 (globals true)) := hstep.1
  have hx : (advance32 (fl32 (1 / 60)) (setup32 800 600 (globals true))).ball.x
      = 10485761 / 2097152 := by
    simp only [advance32, setup32]
    rw [fl32_step_x, zero_add, fl32_step_x_exact]
  have hy : (advance32 (fl32 (1 / 60)) (setup32 800 600 (globals true))).ball.y
      = 6990507 / 2097152 := by
    simp only [advance32, setup32]
    rw [fl32_step_y, zero_add, fl32_step_y_exact]
  rw [hupd, hx, hy]
  refine ⟨⟨400, rfl⟩, by decide, by norm_num, by norm_num, rfl, rfl, by norm_num, by norm_num⟩

/-- C9 (amended): in binary32 arithmetic, starting from the state of `setup`
with `WINDOW_WIDTH` even, `100 < WINDOW_WIDTH ≤ 4096` and `WINDOW_HEIGHT ≤ 4096`,
`n` calls of `update` with `delta_time` the `float` nearest to 1/60 and no
input give, for every `n` with `5 n + 15 < WINDOW_WIDTH` and
`10 n / 3 + 15 < WINDOW_HEIGHT - 40`, the state of direct accumulation up to
rounding: `ball.x` within `3 n / 8192` of `5 n`, `ball.y` within `3 n / 8192`
of `10 n / 3`, the ball's velocity still exactly `(300, 200)` and its size
15 by 15, the paddle as `setup` left it, `game_over` false. -/
theorem golden_trace_binary32 (W H : Int) (window_ok : Bool) (n : Nat)
    (heven : 2 ∣ W) (hW : 100 < W) (hW4 : W ≤ 4096) (hH4 : H ≤ 4096)
    (hx : 5 * (n : ℚ) + 15 < (W : ℚ)) (hy : 10 * (n : ℚ) / 3 + 15 < (H : ℚ) - 40) :
    |(update32_n W H (fl32 (1 / 60)) n (setup32 W H (globals window_ok))).ball.x
      - 5 * (n : ℚ)| ≤ 3 * (n : ℚ) / 8192 ∧
    |(update32_n W H (fl32 (1 / 60)) n (setup32 W H (globals window_ok))).ball.y
      - 10 * (n : ℚ) / 3| ≤ 3 * (n : ℚ) / 8192 ∧
    (update32_n W H (fl32 (1 / 60)) n (setup32 W H (globals window_ok))).ball.vel_x = 300 ∧
    (update32_n W H (fl32 (1 / 60)) n (setup32 W H (globals window_ok))).ball.vel_y = 200 ∧
    (update32_n W H (fl32 (1 / 60)) n (setup32 W H (globals window_ok))).ball.width = 15 ∧
    (update32_n W H (fl32 (1 / 60)) n (setup32 W H (globals window_ok))).ball.height = 15 ∧
    (update32_n W H (fl32 (1 / 60)) n (setup32 W H (globals window_ok))).paddle
      = (setup32 W H (globals window_ok)).paddle ∧
    (update32_n W H (fl32 (1 / 60)) n (setup32 W H (globals window_ok))).paddle
      = { x := (W : ℚ) / 2 - 50, y := (H : ℚ) - 40, width := 100, height := 20,
          vel_x := 0, vel_y := 0 } ∧
    (update32_n W H (fl32 (1 / 60)) n (setup32 W H (globals window_ok))).game_over = false ∧
    (update32_n W H (fl32 (1 / 60)) n (setup32 W H (globals window_ok))).game_is_running
      = window_ok := by
  have hH0 : 55 < H := by
    have hn0 : (0 : ℚ) ≤ (n : ℚ) := Nat.cast_nonneg n
    have : ((55 : Int) : ℚ) < (H : ℚ) := by push_cast; linarith
    exact_mod_cast this
  obtain ⟨hr, hg, hbw, hbh, hvx, hvy, hx0, hy0, hp⟩ :=
    near_golden_reached W H window_ok n heven hW hW4 hH4 hx hy
  obtain ⟨-, -, -, -, -, -, -, -, hp0⟩ :=
    near_golden_setup32 W H window_ok heven hW hW4 hH0 hH4
  exact ⟨hx0, hy0, hvx, hvy, hbw, hbh, hp.trans hp0.symm, hp, hg, hr⟩

/-- Witness of C9: three frames in an 800 by 600 window put the ball within
9/8192 of (15, 10), with velocity (300, 200) and `game_over` clear. -/
theorem golden_trace_binary32_witness :
    (2 : Int) ∣ 800 ∧ (100 : Int) < 800 ∧ (800 : Int) ≤ 4096 ∧ (600 : Int) ≤ 4096 ∧
    5 * ((3 : Nat) : ℚ) + 15 < ((800 : Int) : ℚ) ∧
    10 * ((3 : Nat) : ℚ) / 3 + 15 < ((600 : Int) : ℚ) - 40 ∧
    |(update32_n 800 600 (fl32 (1 / 60)) 3 (setup32 800 600 (globals true))).ball.x - 15|
      ≤ 9 / 8192 ∧
    |(update32_n 800 600 (fl32 (1 / 60)) 3 (setup32 800 600 (globals true))).ball.y - 10|
      ≤ 9 / 8192 ∧
    (update32_n 800 600 (fl32 (1 / 60)) 3 (setup32 800 600 (globals true))).ball.vel_x = 300 ∧
    (update32_n 800 600 (fl32 (1 / 60)) 3 (setup32 800 600 (globals true))).ball.vel_y = 200 ∧
    (update32_n 800 600 (fl32 (1 / 60)) 3 (setup32 800 600 (globals true))).game_over = false :=
  have h := golden_trace_binary32 800 600 true 3 ⟨400, rfl⟩ (by decide) (by decide) (by decide)
    (by norm_num) (by norm_num)
  ⟨⟨400, rfl⟩, by decide, by decide, by decide, by norm_num, by norm_num,
    by have h1 := h.1; norm_num at h1 ⊢; exact h1,
    by have h2 := h.2.1; norm_num at h2 ⊢; exact h2,
    h.2.2.1, h.2.2.2.1, h.2.2.2.2.2.2.2.2.1⟩

end GameLoop
